import Mathlib

/-!
# Session core of the SPQR router (`router/frontend.go`)

A shallow embedding of `AdvancedPoolModeNeeded`, `deparseRouteHint`, `procQuery`,
`ProcessMessage` and `Frontend`.

Conventions of the embedding.

* The relay state `rst` is passed explicitly.  Every call that leaves `frontend.go`
  (client replies, relay methods, pool manager, metadata store) appends one `Event` to
  `RelayState.trace`, in call order, so that "what was sent, and in which order" is a
  statement about the trace.
* Collaborators whose code is outside `frontend.go` and whose answers the code branches
  on are fields of `Env`.  The answer may depend on the whole relay state at the time
  of the call (trace included), so an `Env` is an arbitrary deterministic environment.
* A Go `string` is a Lean `String`, read one `Char` per byte; `len` is `String.length`.
* A Go `error` is a `GoError`; `nil` is `none`.
* Logging and statistics calls (`spqrlog`, `statistics.RecordStartTime`) have no effect
  on anything modelled here and are left out.
-/

namespace Router

/-! ## Data model -/

/-- Go `error` values: the two `io` sentinels, compared by identity in `Frontend`, and
errors built from a message (`fmt.Errorf`, collaborators). -/
inductive GoError where
  | EOF
  | ErrUnexpectedEOF
  | errorString (s : String)
  deriving DecidableEq, Repr

/-- The `Error()` method of a Go error. -/
def GoError.Error : GoError → String
  | .EOF => "EOF"
  | .ErrUnexpectedEOF => "unexpected EOF"
  | .errorString s => s

/-- Modelled from the spec: package `txstatus` is not part of the sources; the spec
gives `txStatus` the three values Idle, Active, Failed. -/
inductive TXStatus where
  | TXIDLE
  | TXACT
  | TXERR
  deriving DecidableEq, Repr

/-- Modelled from the spec: `config.PoolMode`, of which `frontend.go` names only
`PoolModeTransaction`. -/
inductive PoolMode where
  | PoolModeSession
  | PoolModeTransaction
  deriving DecidableEq, Repr

/-- Modelled from the spec: `config.RouterMode`, of which `frontend.go` names only
`ProxyMode`. -/
inductive RouterMode where
  | LocalMode
  | ProxyMode
  deriving DecidableEq, Repr

/-- Modelled from the spec: `config.TargetSessionAttrsPS`. -/
def TargetSessionAttrsPS : String := "prefer-standby"

/-- Modelled from the spec: `config.TargetSessionAttrsRW`. -/
def TargetSessionAttrsRW : String := "read-write"

/-- The `pgproto3.FrontendMessage` values `ProcessMessage` switches on, with the
fields the code reads; every other message type is `Other`. -/
inductive FrontendMessage where
  | Terminate
  | Sync
  | FunctionCall (Function : Nat)
  | Parse (Name Query : String)
  | Execute (Portal : String) (MaxRows : Nat)
  | Bind (DestinationPortal PreparedStatement : String)
  | Describe (ObjectType : Nat) (Name : String)
  | Query (String : String)
  | Other (tag : Nat)
  deriving DecidableEq, Repr

/-- The `pgproto3` backend messages `procQuery` builds itself and hands to
`Client().Send`.  A `RowDescription` is given by the `DataTypeOID` of each field. -/
inductive BackendMessage where
  | EmptyQueryResponse
  | ReadyForQuery (TxStatus : TXStatus)
  | RowDescription (DataTypeOIDs : List Nat)
  | DataRow (Values : List String)
  deriving DecidableEq, Repr

/-- The three `routehint.RouteHint` implementations; `Target` carries
`State.Route`. -/
inductive RouteHint where
  | EmptyRouteHint
  | ScatterRouteHint
  | TargetRouteHint (Route : String)
  deriving DecidableEq, Repr

/-- Items of `ParseStateTXBegin.Options` (`lyx` transaction modes). -/
inductive TransactionModeItem where
  | TransactionReadOnly
  | TransactionReadWrite
  | Other (n : Nat)
  deriving DecidableEq, Repr

/-- The dynamic types of the `parser.ParseState` that `rst.Parse` returns; `Other` is
every type that reaches the `default` case of the switch in `procQuery`. -/
inductive ParseState where
  | ParseStateTXBegin (Options : List TransactionModeItem)
  | ParseStateTXCommit
  | ParseStateTXRollback
  | ParseStateEmptyQuery
  | ParseStateSetStmt (Name Value : String)
  | ParseStateShowStmt (Name : String)
  | ParseStateResetStmt (Name : String)
  | ParseStateResetMetadataStmt (Setting : String)
  | ParseStateResetAllStmt
  | ParseStateSetLocalStmt
  | ParseStatePrepareStmt (Name Query : String)
  | ParseStateExecute (Name : String)
  | ParseStateExplain
  | Other (tag : Nat)
  deriving DecidableEq, Repr

/-- The arguments of `qrouter.NewRoutingMetadataContext(krs, rls, dataspace, nil)`. -/
structure RoutingMetadataContext where
  krs : List String
  rls : List String
  dataspace : String
  deriving DecidableEq, Repr

/-- One call leaving `frontend.go`, with its arguments. -/
inductive Event where
  | ReplyWarningf (msg : String)
  | ReplyCommandComplete (st : TXStatus) (tag : String)
  | ReplyErrMsg (msg : String)
  | Send (m : BackendMessage)
  | SetTsa (v : String)
  | StartTx
  | CommitActiveSet
  | Rollback
  | SetParam (name value : String)
  | ResetParam (name : String)
  | ResetAll
  | StorePreparedStatement (name query : String)
  | PreparedStatementQueryByName (name : String)
  | SetTxStatus (st : TXStatus)
  | AddQuery (m : FrontendMessage)
  | AddSilentQuery (m : FrontendMessage)
  | AddExtendedProtocMessage (m : FrontendMessage)
  | ProcessMessageBuf (waitForResp replyCl : Bool) (hint : Option RouteHint)
  | ProcessMessage (m : FrontendMessage) (waitForResp replyCl : Bool)
      (hint : Option RouteHint)
  | ProcessExtendedBuffer (batch : List FrontendMessage)
  | ConnectionActive
  | ListKeyRanges (dataspace : String)
  | ListShardingRules (dataspace : String)
  | DeparseKeyWithRangesInternal (key : String) (meta : RoutingMetadataContext)
  | ReplyDebugNoticef (msg : String)
  | Receive
  | RecordWorkload (m : FrontendMessage)
  | UnRouteWithError (shards : List String) (err : GoError)
  | Close
  deriving DecidableEq, Repr

/-- The relay state of one client connection together with the client session it
holds (`rst` and `rst.Client()`), and the trace of the calls made so far. -/
structure RelayState where
  txStatus : TXStatus
  PoolMode : PoolMode
  PoolPreparedStatement : Bool
  RouterMode : RouterMode
  DS : String
  tsa : String
  params : List (String × String)
  preparedStatements : List (String × String)
  extendedQueue : List FrontendMessage
  trace : List Event
  deriving DecidableEq, Repr

/-- What a forwarding call of the relay reports back: the `bool` and `error` it
returns, and the transaction status the relay holds when it returns (the relay
follows the status the shard reports). -/
structure RelayOutcome where
  ok : Bool
  err : Option GoError
  txStatus : TXStatus
  deriving DecidableEq, Repr

/-- The collaborators of `frontend.go`.  Constants and standard-library functions that
the file only names are fields as well. -/
structure Env where
  /-- The constant `client.SPQR_SCATTER_QUERY`. -/
  SPQR_SCATTER_QUERY : String
  /-- The constant `client.SPQR_SHARDING_KEY`. -/
  SPQR_SHARDING_KEY : String
  /-- The function `strings.ToLower`. -/
  ToLower : String → String
  /-- The method `rst.Parse`: the statement kind and the comment, or an error. -/
  Parse : String → Except GoError (ParseState × String)
  /-- The function `parser.ParseComment`. -/
  ParseComment : String → Except GoError (List (String × String))
  /-- The method `Client().ConstructClientParams`, from the session parameters. -/
  ConstructClientParams : List (String × String) → FrontendMessage
  /-- The method `Mgr().ListKeyRanges`. -/
  ListKeyRanges : RelayState → String → Except GoError (List String)
  /-- The method `Mgr().ListShardingRules`. -/
  ListShardingRules : RelayState → String → Except GoError (List String)
  /-- The method `QueryRouter().DeparseKeyWithRangesInternal`. -/
  DeparseKeyWithRangesInternal :
    RelayState → String → RoutingMetadataContext → Except GoError String
  /-- The method `cmngr.ConnectionActive`. -/
  ConnectionActive : RelayState → Bool
  /-- The method `rst.ProcessMessageBuf`. -/
  ProcessMessageBuf : RelayState → Bool → Bool → Option RouteHint → RelayOutcome
  /-- The method `rst.ProcessMessage`; its outcome has no `ok`. -/
  ProcessMessage :
    RelayState → FrontendMessage → Bool → Bool → Option RouteHint → RelayOutcome
  /-- The method `rst.ProcessExtendedBuffer`; its outcome has no `ok`. -/
  ProcessExtendedBuffer : RelayState → RelayOutcome
  /-- The error returned by `Client().ReplyCommandComplete`. -/
  ReplyCommandComplete : RelayState → TXStatus → String → Option GoError
  /-- The error returned by `Client().Send`. -/
  Send : RelayState → BackendMessage → Option GoError

/-! ## Relay and client operations called by `frontend.go` -/

/-- Record one call in the trace. -/
def RelayState.log (rst : RelayState) (e : Event) : RelayState :=
  { rst with trace := rst.trace ++ [e] }

/-- Modelled from the spec: `rst.TxStatus()` is not part of the sources; it reads the
`txStatus` of the session. -/
def RelayState.TxStatus (rst : RelayState) : TXStatus := rst.txStatus

/-- Modelled from the spec: `rst.SetTxStatus(st)` is not part of the sources; it
writes the `txStatus` of the session. -/
def RelayState.SetTxStatus (rst : RelayState) (st : TXStatus) : RelayState :=
  { rst.log (.SetTxStatus st) with txStatus := st }

/-- `rst.AddQuery(msg)`. -/
def RelayState.AddQuery (rst : RelayState) (msg : FrontendMessage) : RelayState :=
  rst.log (.AddQuery msg)

/-- `rst.AddSilentQuery(msg)`. -/
def RelayState.AddSilentQuery (rst : RelayState) (msg : FrontendMessage) : RelayState :=
  rst.log (.AddSilentQuery msg)

/-- Modelled from the spec: `rst.Client().SetTsa(v)` is not part of the sources; it
writes the `targetSessionAttrs` of the session. -/
def RelayState.SetTsa (rst : RelayState) (v : String) : RelayState :=
  { rst.log (.SetTsa v) with tsa := v }

/-- `rst.Client().StartTx()`. -/
def RelayState.StartTx (rst : RelayState) : RelayState := rst.log .StartTx

/-- `rst.Client().CommitActiveSet()`. -/
def RelayState.CommitActiveSet (rst : RelayState) : RelayState := rst.log .CommitActiveSet

/-- `rst.Client().Rollback()`. -/
def RelayState.Rollback (rst : RelayState) : RelayState := rst.log .Rollback

/-- `rst.Client().ReplyWarningf(msg)`; every caller drops the returned error. -/
def RelayState.ReplyWarningf (rst : RelayState) (msg : String) : RelayState :=
  rst.log (.ReplyWarningf msg)

/-- `rst.Client().ReplyErrMsg(msg)`; the caller drops the returned error. -/
def RelayState.ReplyErrMsg (rst : RelayState) (msg : String) : RelayState :=
  rst.log (.ReplyErrMsg msg)

/-- `rst.Client().ReplyCommandComplete(st, tag)`. -/
def ReplyCommandComplete (env : Env) (rst : RelayState) (st : TXStatus) (tag : String) :
    RelayState × Option GoError :=
  let rst := rst.log (.ReplyCommandComplete st tag)
  (rst, env.ReplyCommandComplete rst st tag)

/-- `rst.Client().Send(m)`. -/
def Send (env : Env) (rst : RelayState) (m : BackendMessage) : RelayState × Option GoError :=
  let rst := rst.log (.Send m)
  (rst, env.Send rst m)

/-- `cmngr.ConnectionActive(rst)`. -/
def ConnectionActive (env : Env) (rst : RelayState) : RelayState × Bool :=
  let rst := rst.log .ConnectionActive
  (rst, env.ConnectionActive rst)

/-- `rst.ProcessMessageBuf(waitForResp, replyCl, cmngr, routeHint)`. -/
def ProcessMessageBuf (env : Env) (rst : RelayState) (waitForResp replyCl : Bool)
    (routeHint : Option RouteHint) : RelayState × Bool × Option GoError :=
  let rst := rst.log (.ProcessMessageBuf waitForResp replyCl routeHint)
  let out := env.ProcessMessageBuf rst waitForResp replyCl routeHint
  ({ rst with txStatus := out.txStatus }, out.ok, out.err)

/-- `rst.ProcessMessage(msg, waitForResp, replyCl, cmngr, routeHint)`. -/
def RelayProcessMessage (env : Env) (rst : RelayState) (msg : FrontendMessage)
    (waitForResp replyCl : Bool) (routeHint : Option RouteHint) :
    RelayState × Option GoError :=
  let rst := rst.log (.ProcessMessage msg waitForResp replyCl routeHint)
  let out := env.ProcessMessage rst msg waitForResp replyCl routeHint
  ({ rst with txStatus := out.txStatus }, out.err)

/-- Modelled from the spec: the session parameter store of the client
(`SetParam`, `ResetParam`, `ResetAll`, `Params`) is not part of the sources.  The spec
makes `params` a mapping from parameter name to current value with unique keys that
supports set, get, reset and reset-all.  `setParam` binds the name to the value. -/
def setParam (ps : List (String × String)) (name value : String) : List (String × String) :=
  (name, value) :: ps.filter (fun kv => kv.1 ≠ name)

/-- Modelled from the spec: `reset` of the session parameter mapping removes the
binding of the name. -/
def resetParam (ps : List (String × String)) (name : String) : List (String × String) :=
  ps.filter (fun kv => kv.1 ≠ name)

/-- Indexing a Go `map[string]string`: the value bound to the key, or the empty
string. -/
def mapIndex (mp : List (String × String)) (key : String) : String :=
  (mp.lookup key).getD ""

/-- `rst.Client().SetParam(name, value)`. -/
def RelayState.SetParam (rst : RelayState) (name value : String) : RelayState :=
  { rst.log (.SetParam name value) with params := setParam rst.params name value }

/-- `rst.Client().ResetParam(name)`. -/
def RelayState.ResetParam (rst : RelayState) (name : String) : RelayState :=
  { rst.log (.ResetParam name) with params := resetParam rst.params name }

/-- `rst.Client().ResetAll()`. -/
def RelayState.ResetAll (rst : RelayState) : RelayState :=
  { rst.log .ResetAll with params := [] }

/-- `rst.Client().Params()`. -/
def RelayState.Params (rst : RelayState) : List (String × String) := rst.params

/-- Modelled from the spec: `StorePreparedStatement` is not part of the sources; the
spec makes `preparedStatements` a mapping from statement name to stored query text. -/
def RelayState.StorePreparedStatement (rst : RelayState) (name query : String) : RelayState :=
  { rst.log (.StorePreparedStatement name query) with
    preparedStatements := setParam rst.preparedStatements name query }

/-- `rst.Client().PreparedStatementQueryByName(name)`; the caller drops the result. -/
def RelayState.PreparedStatementQueryByName (rst : RelayState) (name : String) : RelayState :=
  rst.log (.PreparedStatementQueryByName name)

/-- Modelled from the spec: `AddExtendedProtocMessage` is not part of the sources; the
spec makes `extendedQueue` the ordered sequence of buffered extended-protocol
messages, to which a message is appended. -/
def RelayState.AddExtendedProtocMessage (rst : RelayState) (q : FrontendMessage) :
    RelayState :=
  { rst.log (.AddExtendedProtocMessage q) with extendedQueue := rst.extendedQueue ++ [q] }

/-- Modelled from the spec: `ProcessExtendedBuffer` is not part of the sources; by the
spec a Sync flushes `extendedQueue` as a single ordered batch, in arrival order, then
clears the queue, and the queue is always emptied by Sync. -/
def ProcessExtendedBuffer (env : Env) (rst : RelayState) : RelayState × Option GoError :=
  let rst := rst.log (.ProcessExtendedBuffer rst.extendedQueue)
  let out := env.ProcessExtendedBuffer rst
  ({ rst with extendedQueue := [], txStatus := out.txStatus }, out.err)

/-- The Go expression `s[8:len(s)]`: a run-time panic (`none`) when `len(s) < 8`. -/
def sliceFrom8 (s : String) : Option String :=
  if 8 ≤ s.length then some (String.mk (s.data.drop 8)) else none

/-- The Go call `strings.HasPrefix(s, p)`. -/
def HasPrefix (s p : String) : Bool := p.data.isPrefixOf s.data

/-! ## The functions of `frontend.go` -/

/-- `AdvancedPoolModeNeeded` (lines 30-32). -/
def AdvancedPoolModeNeeded (rst : RelayState) : Bool :=
  (rst.PoolMode == PoolMode.PoolModeTransaction && rst.PoolPreparedStatement)
    || rst.RouterMode == RouterMode.ProxyMode

/-- `deparseRouteHint` (lines 34-65).  The result is the pair the Go function returns:
the hint (`none` is the `nil` interface) and the error. -/
def deparseRouteHint (env : Env) (rst : RelayState) (params : List (String × String))
    (dataspace : String) : RelayState × Option RouteHint × Option GoError :=
  match params.lookup env.SPQR_SCATTER_QUERY with
  | some _ => (rst, some RouteHint.ScatterRouteHint, none)
  | none =>
    match params.lookup env.SPQR_SHARDING_KEY with
    | some val =>
      let rst := rst.log (.ListKeyRanges dataspace)
      match env.ListKeyRanges rst dataspace with
      | .error err => (rst, none, some err)
      | .ok krs =>
        let rst := rst.log (.ListShardingRules dataspace)
        match env.ListShardingRules rst dataspace with
        | .error err => (rst, none, some err)
        | .ok rls =>
          let ctx : RoutingMetadataContext := { krs := krs, rls := rls, dataspace := dataspace }
          let rst := rst.log (.DeparseKeyWithRangesInternal val ctx)
          match env.DeparseKeyWithRangesInternal rst val ctx with
          | .error err => (rst, none, some err)
          | .ok ds => (rst, some (RouteHint.TargetRouteHint ds), none)
    | none => (rst, some RouteHint.EmptyRouteHint, none)

/-- Lines 76-87 of `procQuery`: the route hint and the `target-session-attrs`
taken from the comment of the statement. -/
def commentRouteHint (env : Env) (rst : RelayState) (comment : String) :
    RelayState × Option RouteHint :=
  match env.ParseComment comment with
  | .error _ => (rst, some RouteHint.EmptyRouteHint)
  | .ok mp =>
    let r := deparseRouteHint env rst mp rst.DS
    let rst := r.1
    let routeHint := r.2.1
    match mp.lookup "target-session-attrs" with
    | some val => (rst.SetTsa val, routeHint)
    | none => (rst, routeHint)

/-- The loop of lines 99-106 over `st.Options`. -/
def applyTxOptions (rst : RelayState) (Options : List TransactionModeItem) : RelayState :=
  Options.foldl
    (fun rst opt =>
      match opt with
      | .TransactionReadOnly => rst.SetTsa TargetSessionAttrsPS
      | .TransactionReadWrite => rst.SetTsa TargetSessionAttrsRW
      | .Other _ => rst)
    rst

/-- Lines 89-257 of `procQuery`: the switch on the type of the parsed statement.
`none` is a run-time panic (the slice of line 162 out of range). -/
def procQuerySwitch (env : Env) (rst : RelayState) (state : ParseState)
    (msg : FrontendMessage) (routeHint : Option RouteHint) :
    Option (RelayState × Option GoError) :=
  match state with
  | .ParseStateTXBegin Options =>
    if rst.TxStatus ≠ TXStatus.TXIDLE then
      let rst := rst.ReplyWarningf "there is already transaction in progress"
      some (ReplyCommandComplete env rst rst.TxStatus "BEGIN")
    else
      let rst := rst.AddSilentQuery msg
      let rst := rst.SetTxStatus TXStatus.TXACT
      let rst := rst.StartTx
      let rst := applyTxOptions rst Options
      some (ReplyCommandComplete env rst rst.TxStatus "BEGIN")
  | .ParseStateTXCommit =>
    if rst.TxStatus ≠ TXStatus.TXACT then
      let rst := rst.ReplyWarningf "there is no transaction in progress"
      some (ReplyCommandComplete env rst rst.TxStatus "COMMIT")
    else
      let c := ConnectionActive env rst
      let rst := c.1
      if !c.2 then
        some (rst, some (.errorString "client relay has no connection to shards"))
      else
        let rst := rst.AddQuery msg
        let r := ProcessMessageBuf env rst true true routeHint
        let rst := r.1
        let rst := if r.2.1 then rst.CommitActiveSet else rst
        some (rst, r.2.2)
  | .ParseStateTXRollback =>
    if rst.TxStatus ≠ TXStatus.TXACT then
      let rst := rst.ReplyWarningf "there is no transaction in progress"
      some (ReplyCommandComplete env rst rst.TxStatus "ROLLBACK")
    else
      let rst := rst.AddQuery msg
      let r := ProcessMessageBuf env rst true true routeHint
      let rst := r.1
      let rst := if r.2.1 then rst.Rollback else rst
      some (rst, r.2.2)
  | .ParseStateEmptyQuery =>
    let r := Send env rst .EmptyQueryResponse
    match r.2 with
    | some err => some (r.1, some err)
    | none => some (Send env r.1 (.ReadyForQuery r.1.TxStatus))
  | .ParseStateSetStmt Name Value =>
    if HasPrefix Name "__spqr__" then
      match sliceFrom8 Name with
      | none => none
      | some suffix =>
        let param := env.ToLower suffix
        let rst := rst.SetParam param Value
        let r := ReplyCommandComplete env rst rst.TxStatus "SET"
        some (r.1, none)
    else
      let rst := rst.AddQuery msg
      let r := ProcessMessageBuf env rst true true routeHint
      match r.2.2 with
      | some err => some (r.1, some err)
      | none =>
        if r.2.1 then some (r.1.SetParam Name Value, none) else some (r.1, none)
  | .ParseStateShowStmt Name =>
    match sliceFrom8 Name with
    | none => none
    | some suffix =>
      let param := env.ToLower suffix
      let r := Send env rst (.RowDescription [25])
      let r := Send env r.1 (.DataRow [mapIndex r.1.Params param])
      let r := ReplyCommandComplete env r.1 r.1.TxStatus "SHOW"
      some (r.1, none)
  | .ParseStateResetStmt Name =>
    let rst := rst.ResetParam Name
    let c := ConnectionActive env rst
    let rst := c.1
    if c.2 then
      let r := RelayProcessMessage env rst (env.ConstructClientParams rst.Params) true false
        routeHint
      match r.2 with
      | some err => some (r.1, some err)
      | none => some (ReplyCommandComplete env r.1 r.1.TxStatus "RESET")
    else
      some (ReplyCommandComplete env rst rst.TxStatus "RESET")
  | .ParseStateResetMetadataStmt Setting =>
    let c := ConnectionActive env rst
    let rst := c.1
    if c.2 then
      let rst := rst.AddQuery msg
      let r := ProcessMessageBuf env rst true true routeHint
      match r.2.2 with
      | some err => some (r.1, some err)
      | none =>
        let rst := r.1.ResetParam Setting
        let rst := if Setting = "session_authorization" then rst.ResetParam "role" else rst
        some (rst, none)
    else
      let rst := rst.ResetParam Setting
      let rst := if Setting = "session_authorization" then rst.ResetParam "role" else rst
      some (ReplyCommandComplete env rst rst.TxStatus "RESET")
  | .ParseStateResetAllStmt =>
    let rst := rst.ResetAll
    some (ReplyCommandComplete env rst rst.TxStatus "RESET")
  | .ParseStateSetLocalStmt =>
    let c := ConnectionActive env rst
    let rst := c.1
    if c.2 then
      let rst := rst.AddQuery msg
      let r := ProcessMessageBuf env rst true true routeHint
      some (r.1, r.2.2)
    else
      some (ReplyCommandComplete env rst rst.TxStatus "SET")
  | .ParseStatePrepareStmt Name Query =>
    if AdvancedPoolModeNeeded rst then
      some (rst.StorePreparedStatement Name Query, none)
    else
      let rst := rst.AddQuery msg
      let r := ProcessMessageBuf env rst true true routeHint
      some (r.1, r.2.2)
  | .ParseStateExecute Name =>
    if AdvancedPoolModeNeeded rst then
      some (rst.PreparedStatementQueryByName Name, none)
    else
      let rst := rst.AddQuery msg
      let r := ProcessMessageBuf env rst true true routeHint
      some (r.1, r.2.2)
  | .ParseStateExplain =>
    some (rst.ReplyErrMsg "parse state explain is not implemented", none)
  | .Other _ =>
    let rst := rst.AddQuery msg
    let r := ProcessMessageBuf env rst true true routeHint
    some (r.1, r.2.2)

/-- `procQuery` (lines 67-257): the relay state when the call returns and the returned
error; `none` is a run-time panic. -/
def procQuery (env : Env) (rst : RelayState) (query : String) (msg : FrontendMessage) :
    Option (RelayState × Option GoError) :=
  match env.Parse query with
  | .error err =>
    some (rst, some (.errorString
      ("error processing query \x27" ++ query ++ "\x27: " ++ err.Error)))
  | .ok (state, comment) =>
    let h := commentRouteHint env rst comment
    procQuerySwitch env h.1 state msg h.2

/-- `ProcessMessage` (lines 260-361).  The `qr` argument is not used by the body.  The
copies `cpQ := *q` make the message an independent value, which it is here. -/
def ProcessMessage (env : Env) (rst : RelayState) (msg : FrontendMessage) :
    Option (RelayState × Option GoError) :=
  if rst.PoolMode ≠ PoolMode.PoolModeTransaction then
    match msg with
    | .Terminate => some (rst, none)
    | .Sync => some (RelayProcessMessage env rst msg true true (some .EmptyRouteHint))
    | .FunctionCall _ => some (RelayProcessMessage env rst msg true true (some .EmptyRouteHint))
    | .Parse _ Query => procQuery env rst Query msg
    | .Execute _ _ => some (RelayProcessMessage env rst msg false true (some .EmptyRouteHint))
    | .Bind _ _ => some (RelayProcessMessage env rst msg false true (some .EmptyRouteHint))
    | .Describe _ _ => some (RelayProcessMessage env rst msg false true (some .EmptyRouteHint))
    | .Query String => procQuery env rst String msg
    | .Other _ => some (rst, none)
  else
    match msg with
    | .Terminate => some (rst, none)
    | .Sync => some (ProcessExtendedBuffer env rst)
    | .Parse _ _ => some (rst.AddExtendedProtocMessage msg, none)
    | .Describe _ _ => some (rst.AddExtendedProtocMessage msg, none)
    | .FunctionCall _ => some (RelayProcessMessage env rst msg false true (some .EmptyRouteHint))
    | .Execute _ _ => some (rst.AddExtendedProtocMessage msg, none)
    | .Bind _ _ => some (rst.AddExtendedProtocMessage msg, none)
    | .Query String => procQuery env rst String msg
    | .Other _ => some (rst, none)

/-- The modes of `workloadlog` that `Frontend` switches on; `Other` is every other
mode. -/
inductive WorkloadLogMode where
  | All
  | Client
  | Other
  deriving DecidableEq, Repr

/-- The methods of the `workloadlog.WorkloadLog` that `Frontend` asks: `IsLogging`,
`GetMode` and `ClientMatches(cl.ID())`. -/
structure WorkloadLog where
  IsLogging : RelayState → Bool
  GetMode : RelayState → WorkloadLogMode
  ClientMatches : RelayState → Bool

/-- The collaborators and arguments of `Frontend` that `procQuery` and
`ProcessMessage` do not use. -/
structure FrontendEnv where
  /-- The field `rcfg.PgprotoDebug`. -/
  PgprotoDebug : Bool
  /-- The method `cl.Usr`. -/
  Usr : String
  /-- The method `cl.DB`. -/
  DB : String
  /-- The argument `writer`; `none` is `nil`. -/
  writer : Option WorkloadLog
  /-- The method `rst.ActiveShards`. -/
  ActiveShards : RelayState → List String
  /-- The method `rst.UnRouteWithError`; its outcome has no `ok`. -/
  UnRouteWithError : RelayState → List String → GoError → RelayOutcome
  /-- The method `String` of `txstatus.TXStatus`. -/
  TxStatusString : TXStatus → String

/-- `rst.UnRouteWithError(shards, err)`. -/
def UnRouteWithError (fenv : FrontendEnv) (rst : RelayState) (shards : List String)
    (err : GoError) : RelayState × Option GoError :=
  let rst := rst.log (.UnRouteWithError shards err)
  let out := fenv.UnRouteWithError rst shards err
  ({ rst with txStatus := out.txStatus }, out.err)

/-- Lines 394-403 of `Frontend`: the message is handed to the workload log when one
is attached and logging, in mode `All`, or in mode `Client` for a matching client. -/
def recordWorkload (fenv : FrontendEnv) (rst : RelayState) (msg : FrontendMessage) :
    RelayState :=
  match fenv.writer with
  | none => rst
  | some writer =>
    if writer.IsLogging rst then
      match writer.GetMode rst with
      | .All => rst.log (.RecordWorkload msg)
      | .Client => if writer.ClientMatches rst then rst.log (.RecordWorkload msg) else rst
      | .Other => rst
    else rst

/-- How a run of `Frontend` on a finite sequence of `Receive` results ends: the
function returned, it panicked, or every result has been consumed and it is blocked in
the next `cl.Receive()`. -/
inductive FrontendResult where
  | returned (rst : RelayState) (err : Option GoError)
  | panicked
  | receiving (rst : RelayState)
  deriving DecidableEq, Repr

/-- The `for` loop of `Frontend` (lines 380-421); the list gives the results of the
successive calls of `cl.Receive()`. -/
def FrontendLoop (env : Env) (fenv : FrontendEnv) (rst : RelayState) :
    List (Except GoError FrontendMessage) → FrontendResult
  | [] => .receiving rst
  | .error err :: _ =>
    let rst := rst.log .Receive
    match err with
    | .ErrUnexpectedEOF => .returned rst none
    | .EOF => .returned rst none
    | .errorString _ =>
      let u := UnRouteWithError fenv rst (fenv.ActiveShards rst) err
      .returned u.1 u.2
  | .ok msg :: rest =>
    let rst := rst.log .Receive
    let rst := recordWorkload fenv rst msg
    match ProcessMessage env rst msg with
    | none => .panicked
    | some (rst, none) => FrontendLoop env fenv rst rest
    | some (rst, some .ErrUnexpectedEOF) => .returned rst none
    | some (rst, some .EOF) => .returned rst none
    | some (rst, some (.errorString e)) =>
      let u := UnRouteWithError fenv rst (fenv.ActiveShards rst)
        (.errorString ("client proccessing error: " ++ e ++ ", tx status "
          ++ fenv.TxStatusString rst.TxStatus))
      match u.2 with
      | some err => .returned u.1 (some err)
      | none => FrontendLoop env fenv u.1 rest

/-- `Frontend` (lines 363-422) on the relay state that `relay.NewRelayState` creates;
the deferred `rst.Close()` runs when the function returns. -/
def Frontend (env : Env) (fenv : FrontendEnv) (rst : RelayState)
    (inputs : List (Except GoError FrontendMessage)) : FrontendResult :=
  let rst :=
    if fenv.PgprotoDebug then
      rst.log (.ReplyDebugNoticef ("process frontend for route " ++ fenv.Usr ++ " " ++ fenv.DB))
    else rst
  match FrontendLoop env fenv rst inputs with
  | .returned rst err => .returned (rst.log .Close) err
  | r => r

/-! ## Reading the trace -/

/-- The calls made between two relay states of one run, oldest first. -/
def emitted (before after : RelayState) : List Event :=
  after.trace.drop before.trace.length

/-- The calls that write to the client: warnings, errors, completions and `Send`. -/
def Event.isReply : Event → Bool
  | .ReplyWarningf _ => true
  | .ReplyCommandComplete _ _ => true
  | .ReplyErrMsg _ => true
  | .Send _ => true
  | .ReplyDebugNoticef _ => true
  | _ => false

/-- The calls that enqueue a message in the relay (`AddQuery`, `AddSilentQuery`,
`AddExtendedProtocMessage`). -/
def Event.isEnqueue : Event → Bool
  | .AddQuery _ => true
  | .AddSilentQuery _ => true
  | .AddExtendedProtocMessage _ => true
  | _ => false

/-- The calls that forward to a shard (`ProcessMessage`, `ProcessMessageBuf`,
`ProcessExtendedBuffer` of the relay). -/
def Event.isForward : Event → Bool
  | .ProcessMessageBuf _ _ _ => true
  | .ProcessMessage _ _ _ _ => true
  | .ProcessExtendedBuffer _ => true
  | _ => false

/-- The calls lines 76-87 of `procQuery` can make: the three metadata lookups of
`deparseRouteHint` and `SetTsa`. -/
def Event.isCommentCall : Event → Bool
  | .ListKeyRanges _ => true
  | .ListShardingRules _ => true
  | .DeparseKeyWithRangesInternal _ _ => true
  | .SetTsa _ => true
  | _ => false

/-- The lookups of the routing metadata store. -/
def Event.isMetadataLookup : Event → Bool
  | .ListKeyRanges _ => true
  | .ListShardingRules _ => true
  | .DeparseKeyWithRangesInternal _ _ => true
  | _ => false

/-- The messages that open or parameterize an extended-protocol statement. -/
def FrontendMessage.isExtended : FrontendMessage → Bool
  | .Parse _ _ => true
  | .Bind _ _ => true
  | .Describe _ _ => true
  | .Execute _ _ => true
  | _ => false

/-- Successive calls of `ProcessMessage` on one relay state, one per message, in
order, for as long as the calls return no error: the state and the error of the
last call made. -/
def dispatchAll (env : Env) (rst : RelayState) :
    List FrontendMessage → Option (RelayState × Option GoError)
  | [] => some (rst, none)
  | m :: ms =>
    match ProcessMessage env rst m with
    | some (rst1, none) => dispatchAll env rst1 ms
    | r => r

/-! ## Sample environment and session -/

/-- An environment for the examples: `rst.Parse` is `parse`, `parser.ParseComment` is
`parseComment`, the metadata lookups answer `krs`, the pool manager answers `active`,
every forwarding call of the relay reports `out`, the reserved parameter names are
those of SPQR, and every reply to the client succeeds. -/
def sampleEnv (parse : String → Except GoError (ParseState × String))
    (parseComment : String → Except GoError (List (String × String)))
    (krs : Except GoError (List String)) (active : Bool) (out : RelayOutcome) : Env where
  SPQR_SCATTER_QUERY := "__spqr__scatter_query"
  SPQR_SHARDING_KEY := "__spqr__sharding_key"
  ToLower := fun s => String.mk (s.data.map Char.toLower)
  Parse := parse
  ParseComment := parseComment
  ConstructClientParams := fun _ => .Query "RESET ALL"
  ListKeyRanges := fun _ _ => krs
  ListShardingRules := fun _ _ => .ok []
  DeparseKeyWithRangesInternal := fun _ key _ => .ok key
  ConnectionActive := fun _ => active
  ProcessMessageBuf := fun _ _ _ _ => out
  ProcessMessage := fun _ _ _ _ _ => out
  ProcessExtendedBuffer := fun _ => out
  ReplyCommandComplete := fun _ _ _ => none
  Send := fun _ _ => none

/-- A session for the examples: no parameters, nothing buffered, empty trace. -/
def sampleSession (st : TXStatus) (mode : PoolMode) : RelayState where
  txStatus := st
  PoolMode := mode
  PoolPreparedStatement := false
  RouterMode := .LocalMode
  DS := "default"
  tsa := ""
  params := []
  preparedStatements := []
  extendedQueue := []
  trace := []


/-- A parser for the examples: every text is classified as `state`, with an empty
comment. -/
def classifyAs (state : ParseState) : String → Except GoError (ParseState × String) :=
  fun _ => .ok (state, "")

/-- A comment parser for the examples: every comment yields the pairs `mp`. -/
def commentPairs (mp : List (String × String)) :
    String → Except GoError (List (String × String)) :=
  fun _ => .ok mp

/-- A parser for the examples that knows the two statements of the router-private
parameter `foo`. -/
def parseFoo (query : String) : Except GoError (ParseState × String) :=
  if query = "SHOW __spqr__foo" then .ok (.ParseStateShowStmt "__spqr__foo", "")
  else .ok (.ParseStateSetStmt "__spqr__foo" "bar", "")

/-- A relay outcome for the examples: success, no error, status Idle. -/
def okOutcome : RelayOutcome := ⟨true, none, .TXIDLE⟩

/-- The failure of the metadata store used in the examples. -/
def metadataUnavailable : GoError := .errorString "metadata unavailable"

/-! ## Further readings of the trace -/

/-- The calls of `Client().SetParam`. -/
def Event.isSetParam : Event → Bool
  | .SetParam _ _ => true
  | _ => false

/-- The calls of `Client().ResetParam`. -/
def Event.isResetParam : Event → Bool
  | .ResetParam _ => true
  | _ => false

/-- The calls of `rst.SetTxStatus`. -/
def Event.isSetTxStatus : Event → Bool
  | .SetTxStatus _ => true
  | _ => false

/-- The statements classified as transaction begin. -/
def ParseState.isTXBegin : ParseState → Bool
  | .ParseStateTXBegin _ => true
  | _ => false

/-- A trace entry with the enqueued message object forgotten. -/
def Event.eraseMsg : Event → Event
  | .AddQuery _ => .AddQuery (.Other 0)
  | .AddSilentQuery _ => .AddSilentQuery (.Other 0)
  | e => e

/-- A relay state with the enqueued message objects forgotten in its trace. -/
def RelayState.eraseMsg (rst : RelayState) : RelayState :=
  { rst with trace := rst.trace.map Event.eraseMsg }

/-- The result of a call with the enqueued message objects forgotten. -/
def eraseResult (r : RelayState × Option GoError) : RelayState × Option GoError :=
  (r.1.eraseMsg, r.2)

/-- The answers of the collaborators do not depend on which message object was
enqueued with `AddQuery` or `AddSilentQuery`. -/
structure Env.MessageBlind (env : Env) : Prop where
  ListKeyRanges : ∀ s d, env.ListKeyRanges s d = env.ListKeyRanges s.eraseMsg d
  ListShardingRules : ∀ s d, env.ListShardingRules s d = env.ListShardingRules s.eraseMsg d
  DeparseKeyWithRangesInternal : ∀ s k c,
    env.DeparseKeyWithRangesInternal s k c = env.DeparseKeyWithRangesInternal s.eraseMsg k c
  ConnectionActive : ∀ s, env.ConnectionActive s = env.ConnectionActive s.eraseMsg
  ProcessMessageBuf : ∀ s w r h,
    env.ProcessMessageBuf s w r h = env.ProcessMessageBuf s.eraseMsg w r h
  ProcessMessage : ∀ s m w r h,
    env.ProcessMessage s m w r h = env.ProcessMessage s.eraseMsg m w r h
  ReplyCommandComplete : ∀ s st tag,
    env.ReplyCommandComplete s st tag = env.ReplyCommandComplete s.eraseMsg st tag
  Send : ∀ s m, env.Send s m = env.Send s.eraseMsg m

/-- The environment that shows its collaborators the relay state with the enqueued
message objects forgotten. -/
def Env.blind (env : Env) : Env :=
  { env with
    ListKeyRanges := fun s d => env.ListKeyRanges s.eraseMsg d
    ListShardingRules := fun s d => env.ListShardingRules s.eraseMsg d
    DeparseKeyWithRangesInternal := fun s k c => env.DeparseKeyWithRangesInternal s.eraseMsg k c
    ConnectionActive := fun s => env.ConnectionActive s.eraseMsg
    ProcessMessageBuf := fun s w r h => env.ProcessMessageBuf s.eraseMsg w r h
    ProcessMessage := fun s m w r h => env.ProcessMessage s.eraseMsg m w r h
    ReplyCommandComplete := fun s st tag => env.ReplyCommandComplete s.eraseMsg st tag
    Send := fun s m => env.Send s.eraseMsg m }

/-- A `Frontend` environment for the examples: no debug notice, no workload log, one
active shard, and `UnRouteWithError` returns `unroute`. -/
def sampleFrontendEnv (unroute : Option GoError) : FrontendEnv where
  PgprotoDebug := false
  Usr := "user"
  DB := "db"
  writer := none
  ActiveShards := fun _ => ["sh1"]
  UnRouteWithError := fun _ _ _ => ⟨false, unroute, .TXIDLE⟩
  TxStatusString := fun st =>
    match st with
    | .TXIDLE => "IDLE"
    | .TXACT => "ACTIVE"
    | .TXERR => "ERROR"

/-- A relay outcome for the examples: the shard is unavailable. -/
def failedOutcome : RelayOutcome := ⟨false, some (.errorString "shard unavailable"), .TXIDLE⟩

/-- A session for the examples in state Idle, with a session authorization and a role
set. -/
def authSession : RelayState :=
  { sampleSession .TXIDLE .PoolModeSession with
    params := [("session_authorization", "bob"), ("role", "admin")] }

/-- A session for the examples in state Idle, with the router in proxy mode. -/
def proxySession : RelayState :=
  { sampleSession .TXIDLE .PoolModeSession with RouterMode := .ProxyMode }

/-- An environment for the examples whose relay answers on the enqueued message
object: `ProcessMessageBuf` reports an error and leaves the status Failed when a Parse
message was enqueued, and reports success otherwise. -/
def objectAwareEnv : Env :=
  { sampleEnv (classifyAs (.Other 0)) (commentPairs []) (.ok []) true okOutcome with
    ProcessMessageBuf := fun s _ _ _ =>
      if s.trace.any
          (fun e =>
            match e with
            | .AddQuery (.Parse _ _) => true
            | _ => false)
      then ⟨false, some (.errorString "prepared statement already exists"), .TXERR⟩
      else okOutcome }

/-! ## Lemmas on the comment handling of `procQuery` -/

theorem emitted_append (rst rst1 : RelayState) (evs : List Event)
    (h : rst1.trace = rst.trace ++ evs) : emitted rst rst1 = evs := by
  simp [emitted, h]

theorem filter_nil_of_commentCall (p : Event → Bool) (evs : List Event)
    (hp : ∀ e, e.isCommentCall = true → p e = false)
    (h : ∀ e ∈ evs, e.isCommentCall = true) : evs.filter p = [] := by
  rw [List.filter_eq_nil_iff]
  intro e he
  simp [hp e (h e he)]

theorem deparseRouteHint_state (env : Env) (rst : RelayState)
    (params : List (String × String)) (dataspace : String) :
    ∃ evs, (deparseRouteHint env rst params dataspace).1 = { rst with trace := rst.trace ++ evs }
      ∧ ∀ e ∈ evs, e.isMetadataLookup = true := by
  unfold deparseRouteHint
  split
  · exact ⟨[], by simp, by simp⟩
  · split
    · rename_i val _
      simp only [RelayState.log]
      split
      · exact ⟨[.ListKeyRanges dataspace], rfl, by simp [Event.isMetadataLookup]⟩
      · split
        · exact ⟨[.ListKeyRanges dataspace, .ListShardingRules dataspace], by simp,
            by simp [Event.isMetadataLookup]⟩
        · rename_i krs _ _ rls _
          split
          · exact ⟨[.ListKeyRanges dataspace, .ListShardingRules dataspace,
              .DeparseKeyWithRangesInternal val ⟨krs, rls, dataspace⟩], by simp,
              by simp [Event.isMetadataLookup]⟩
          · exact ⟨[.ListKeyRanges dataspace, .ListShardingRules dataspace,
              .DeparseKeyWithRangesInternal val ⟨krs, rls, dataspace⟩], by simp,
              by simp [Event.isMetadataLookup]⟩
    · exact ⟨[], by simp, by simp⟩

theorem commentRouteHint_state (env : Env) (rst : RelayState) (comment : String) :
    ∃ evs tsa, (commentRouteHint env rst comment).1
        = { rst with trace := rst.trace ++ evs, tsa := tsa }
      ∧ ∀ e ∈ evs, e.isCommentCall = true := by
  unfold commentRouteHint
  split
  · exact ⟨[], rst.tsa, by simp, by simp⟩
  · rename_i mp _
    obtain ⟨evs, h1, h2⟩ := deparseRouteHint_state env rst mp rst.DS
    have h3 : ∀ e ∈ evs, e.isCommentCall = true := by
      intro e he
      have := h2 e he
      cases e <;> simp_all [Event.isMetadataLookup, Event.isCommentCall]
    split
    · rename_i val _
      refine ⟨evs ++ [.SetTsa val], val, ?_, ?_⟩
      · simp only [h1, RelayState.SetTsa, RelayState.log, List.append_assoc]
      · intro e he
        rcases List.mem_append.mp he with h | h
        · exact h3 e h
        · simp at h; subst h; rfl
    · exact ⟨evs, rst.tsa, by simp only [h1], h3⟩

theorem applyTxOptions_state (Options : List TransactionModeItem) (rst : RelayState) :
    ∃ evs tsa, applyTxOptions rst Options
        = { rst with trace := rst.trace ++ evs, tsa := tsa }
      ∧ ∀ e ∈ evs, e.isCommentCall = true := by
  induction Options generalizing rst with
  | nil => exact ⟨[], rst.tsa, by simp [applyTxOptions], by simp⟩
  | cons opt rest ih =>
    cases opt with
    | TransactionReadOnly =>
      obtain ⟨evs, tsa, h1, h2⟩ := ih (rst.SetTsa TargetSessionAttrsPS)
      refine ⟨.SetTsa TargetSessionAttrsPS :: evs, tsa, ?_, ?_⟩
      · simp only [applyTxOptions, List.foldl_cons] at h1 ⊢
        rw [h1]
        simp [RelayState.SetTsa, RelayState.log]
      · intro e he
        rcases List.mem_cons.mp he with h | h
        · subst h; rfl
        · exact h2 e h
    | TransactionReadWrite =>
      obtain ⟨evs, tsa, h1, h2⟩ := ih (rst.SetTsa TargetSessionAttrsRW)
      refine ⟨.SetTsa TargetSessionAttrsRW :: evs, tsa, ?_, ?_⟩
      · simp only [applyTxOptions, List.foldl_cons] at h1 ⊢
        rw [h1]
        simp [RelayState.SetTsa, RelayState.log]
      · intro e he
        rcases List.mem_cons.mp he with h | h
        · subst h; rfl
        · exact h2 e h
    | Other n =>
      obtain ⟨evs, tsa, h1, h2⟩ := ih rst
      refine ⟨evs, tsa, ?_, h2⟩
      simp only [applyTxOptions, List.foldl_cons] at h1 ⊢
      exact h1

theorem commentCall_filters (evs : List Event) (h : ∀ e ∈ evs, e.isCommentCall = true) :
    evs.filter Event.isReply = [] ∧ evs.filter Event.isEnqueue = []
      ∧ evs.filter Event.isForward = [] := by
  refine ⟨?_, ?_, ?_⟩ <;>
  · apply filter_nil_of_commentCall _ _ _ h
    intro e he
    cases e <;> simp_all [Event.isCommentCall, Event.isReply, Event.isEnqueue, Event.isForward]

theorem deparseRouteHint_error_lookup (env : Env) (rst : RelayState)
    (params : List (String × String)) (dataspace : String) (e : GoError)
    (h : (deparseRouteHint env rst params dataspace).2.2 = some e) :
    ∃ tl, (deparseRouteHint env rst params dataspace).1.trace
      = rst.trace ++ Event.ListKeyRanges dataspace :: tl := by
  unfold deparseRouteHint at h ⊢
  split at h
  · simp at h
  · rename_i hs
    simp only [hs]
    split at h
    · rename_i val hk
      simp only [hk, RelayState.log] at h ⊢
      split
      · exact ⟨[], rfl⟩
      · split
        · exact ⟨_, by simp only [List.append_assoc, List.singleton_append]; rfl⟩
        · split
          · exact ⟨_, by simp only [List.append_assoc, List.singleton_append]; rfl⟩
          · exact ⟨_, by simp only [List.append_assoc, List.singleton_append]; rfl⟩
    · simp at h

theorem commentRouteHint_trace_of_ok (env : Env) (rst : RelayState) (comment : String)
    (mp : List (String × String)) (hcomment : env.ParseComment comment = .ok mp) :
    ∃ tl, (commentRouteHint env rst comment).1.trace
      = (deparseRouteHint env rst mp rst.DS).1.trace ++ tl := by
  simp only [commentRouteHint, hcomment]
  split
  · exact ⟨[_], rfl⟩
  · exact ⟨[], by simp⟩

theorem dispatchAll_extended (env : Env) (msgs : List FrontendMessage) (rst : RelayState)
    (hmode : rst.PoolMode = .PoolModeTransaction)
    (hext : ∀ m ∈ msgs, m.isExtended = true) :
    dispatchAll env rst msgs
      = some ({ rst with
          extendedQueue := rst.extendedQueue ++ msgs,
          trace := rst.trace ++ msgs.map Event.AddExtendedProtocMessage }, none) := by
  induction msgs generalizing rst with
  | nil => simp [dispatchAll]
  | cons m ms ih =>
    have hm : m.isExtended = true := hext m (List.mem_cons_self _ _)
    have hms : ∀ x ∈ ms, x.isExtended = true := fun x hx => hext x (List.mem_cons_of_mem _ hx)
    have hstep : ProcessMessage env rst m = some (rst.AddExtendedProtocMessage m, none) := by
      cases m <;> simp_all [ProcessMessage, FrontendMessage.isExtended]
    simp only [dispatchAll, hstep]
    rw [ih (rst.AddExtendedProtocMessage m) (by simpa [RelayState.AddExtendedProtocMessage,
      RelayState.log] using hmode) hms]
    simp [RelayState.AddExtendedProtocMessage, RelayState.log]

theorem spqr_name_slice (s : String) :
    HasPrefix ("__spqr__" ++ s) "__spqr__" = true ∧ sliceFrom8 ("__spqr__" ++ s) = some s := by
  have hlen : "__spqr__".length = 8 := by decide
  have hdata : "__spqr__".data = ['_', '_', 's', 'p', 'q', 'r', '_', '_'] := by decide
  exact ⟨by simp [HasPrefix], by simp [sliceFrom8, hlen, hdata]⟩

theorem procQuery_set_internal (env : Env) (rst : RelayState) (q c s v : String)
    (m : FrontendMessage)
    (hset : env.Parse q = .ok (.ParseStateSetStmt ("__spqr__" ++ s) v, c)) :
    ∃ evs tsa, (∀ e ∈ evs, e.isCommentCall = true)
      ∧ procQuery env rst q m
        = some ({ rst with
            tsa := tsa
            params := setParam rst.params (env.ToLower s) v
            trace := rst.trace ++ (evs ++ [.SetParam (env.ToLower s) v,
              .ReplyCommandComplete rst.txStatus "SET"]) }, none) := by
  obtain ⟨hpre, hslice⟩ := spqr_name_slice s
  obtain ⟨evs, tsa, h1, h2⟩ := commentRouteHint_state env rst c
  refine ⟨evs, tsa, h2, ?_⟩
  simp [procQuery, hset, procQuerySwitch, h1, hpre, hslice,
    ReplyCommandComplete, RelayState.log, RelayState.SetParam, RelayState.TxStatus]

theorem procQuery_show_internal (env : Env) (rst : RelayState) (q c s : String)
    (m : FrontendMessage)
    (hshow : env.Parse q = .ok (.ParseStateShowStmt ("__spqr__" ++ s), c)) :
    ∃ evs tsa, (∀ e ∈ evs, e.isCommentCall = true)
      ∧ procQuery env rst q m
        = some ({ rst with
            tsa := tsa
            trace := rst.trace ++ (evs ++ [.Send (.RowDescription [25]),
              .Send (.DataRow [mapIndex rst.params (env.ToLower s)]),
              .ReplyCommandComplete rst.txStatus "SHOW"]) }, none) := by
  obtain ⟨hpre, hslice⟩ := spqr_name_slice s
  obtain ⟨evs, tsa, h1, h2⟩ := commentRouteHint_state env rst c
  refine ⟨evs, tsa, h2, ?_⟩
  simp [procQuery, hshow, procQuerySwitch, h1, hslice, Send,
    ReplyCommandComplete, RelayState.log, RelayState.Params, RelayState.TxStatus]

theorem mapIndex_setParam (ps : List (String × String)) (name value : String) :
    mapIndex (setParam ps name value) name = value := by
  simp [mapIndex, setParam, List.lookup]

/-! ## Further lemmas -/

theorem commentCall_filters2 (evs : List Event) (h : ∀ e ∈ evs, e.isCommentCall = true) :
    evs.filter Event.isResetParam = [] ∧ evs.filter Event.isSetParam = [] := by
  refine ⟨?_, ?_⟩ <;>
  · apply filter_nil_of_commentCall _ _ _ h
    intro e he
    cases e <;> simp_all [Event.isCommentCall, Event.isResetParam, Event.isSetParam]

theorem AdvancedPoolModeNeeded_congr (rst : RelayState) (tsa : String) (evs : List Event) :
    AdvancedPoolModeNeeded { rst with trace := evs, tsa := tsa } = AdvancedPoolModeNeeded rst :=
  rfl

theorem commentCall_filter_setTx (evs : List Event) (h : ∀ e ∈ evs, e.isCommentCall = true) :
    evs.filter Event.isSetTxStatus = [] := by
  apply filter_nil_of_commentCall _ _ _ h
  intro e he
  cases e <;> simp_all [Event.isCommentCall, Event.isSetTxStatus]

theorem procQuerySwitch_setTxStatus (env : Env) (rst : RelayState) (state : ParseState)
    (msg : FrontendMessage) (hint : Option RouteHint) (rst1 : RelayState)
    (err : Option GoError)
    (hret : procQuerySwitch env rst state msg hint = some (rst1, err)) :
    rst1.trace = rst.trace ++ emitted rst rst1
    ∧ (emitted rst rst1).filter Event.isSetTxStatus
      = if state.isTXBegin = true ∧ rst.txStatus = .TXIDLE then [.SetTxStatus .TXACT]
        else [] := by
  cases state with
  | ParseStateTXBegin Options =>
    by_cases hidle : rst.txStatus = .TXIDLE
    · obtain ⟨evs2, tsa2, h3, h4⟩ := applyTxOptions_state Options
        ((rst.AddSilentQuery msg).SetTxStatus TXStatus.TXACT).StartTx
      have hf := commentCall_filter_setTx evs2 h4
      simp only [procQuerySwitch, RelayState.TxStatus, hidle, ne_eq, not_true_eq_false,
        if_false, h3, ReplyCommandComplete, Option.some.injEq, Prod.mk.injEq] at hret
      obtain ⟨rfl, -⟩ := hret
      constructor <;>
      simp [emitted, RelayState.log, RelayState.AddSilentQuery, RelayState.SetTxStatus,
        RelayState.StartTx, List.filter_append, hf, Event.isSetTxStatus, ParseState.isTXBegin,
        hidle]
    · simp only [procQuerySwitch, RelayState.TxStatus, ne_eq, hidle, not_false_eq_true,
        if_true, ReplyCommandComplete, Option.some.injEq, Prod.mk.injEq] at hret
      obtain ⟨rfl, -⟩ := hret
      constructor <;>
      simp [emitted, RelayState.log, RelayState.ReplyWarningf, List.filter_append,
        Event.isSetTxStatus, ParseState.isTXBegin, hidle]
  | _ =>
    simp only [procQuerySwitch] at hret
    repeat' split at hret
    all_goals simp only [Option.some.injEq, Prod.mk.injEq, reduceCtorEq] at hret
    all_goals
      try obtain ⟨rfl, -⟩ := hret
    all_goals
      constructor <;>
      simp [emitted, RelayState.log, RelayState.ReplyWarningf, RelayState.AddQuery,
        RelayState.CommitActiveSet, RelayState.Rollback, RelayState.SetParam,
        RelayState.ResetParam, RelayState.ResetAll, RelayState.StorePreparedStatement,
        RelayState.PreparedStatementQueryByName, RelayState.ReplyErrMsg, RelayState.Params,
        RelayState.TxStatus,
        ReplyCommandComplete, Send, ConnectionActive, ProcessMessageBuf, RelayProcessMessage,
        List.filter_append, Event.isSetTxStatus, ParseState.isTXBegin]

theorem sliceFrom8_of_HasPrefix (Name : String) (h : HasPrefix Name "__spqr__" = true) :
    ∃ suffix, sliceFrom8 Name = some suffix := by
  have hlen : "__spqr__".data.length = 8 := by decide
  have hp : "__spqr__".data <+: Name.data := by
    simpa [HasPrefix, List.isPrefixOf_iff_prefix] using h
  have hle := hp.length_le
  rw [hlen] at hle
  have h8 : 8 ≤ Name.length := hle
  exact ⟨String.mk (Name.data.drop 8), by unfold sliceFrom8; rw [if_pos h8]⟩

theorem procQuerySwitch_none (env : Env) (rst : RelayState) (state : ParseState)
    (msg : FrontendMessage) (hint : Option RouteHint)
    (h : procQuerySwitch env rst state msg hint = none) :
    ∃ Name, state = .ParseStateShowStmt Name ∧ Name.length < 8 := by
  cases state with
  | ParseStateShowStmt Name =>
    refine ⟨Name, rfl, ?_⟩
    by_contra hc
    have h8 : 8 ≤ Name.length := by omega
    simp [procQuerySwitch, sliceFrom8, h8] at h
  | ParseStateSetStmt Name Value =>
    exfalso
    by_cases hp : HasPrefix Name "__spqr__" = true
    · obtain ⟨suffix, hs⟩ := sliceFrom8_of_HasPrefix Name hp
      simp [procQuerySwitch, hp, hs] at h
    · have hp0 : HasPrefix Name "__spqr__" = false := by simpa using hp
      simp only [procQuerySwitch, hp0, Bool.false_eq_true, if_false] at h
      repeat' split at h
      all_goals simp at h
  | _ =>
    exfalso
    simp only [procQuerySwitch] at h
    repeat' split at h
    all_goals simp at h

theorem eraseMsg_log (s : RelayState) (e : Event) :
    (s.log e).eraseMsg = s.eraseMsg.log e.eraseMsg := by
  simp [RelayState.eraseMsg, RelayState.log]

theorem eraseMsg_SetTsa (s : RelayState) (v : String) :
    (s.SetTsa v).eraseMsg = s.eraseMsg.SetTsa v := by
  simp [RelayState.eraseMsg, RelayState.log, RelayState.SetTsa, Event.eraseMsg]

theorem applyTxOptions_eraseMsg (Options : List TransactionModeItem) (s : RelayState) :
    (applyTxOptions s Options).eraseMsg = applyTxOptions s.eraseMsg Options := by
  induction Options generalizing s with
  | nil => rfl
  | cons opt rest ih =>
    cases opt <;> simp only [applyTxOptions, List.foldl_cons] at ih ⊢
    · rw [ih, eraseMsg_SetTsa]
    · rw [ih, eraseMsg_SetTsa]
    · rw [ih]

theorem Env.MessageBlind.eq_blind (env : Env) (hb : env.MessageBlind) : env = env.blind := by
  cases env
  simp only [Env.blind, Env.mk.injEq, true_and]
  refine ⟨?_, ?_, ?_, ?_, ?_, ?_, ?_, ?_⟩
  · funext s d; exact hb.ListKeyRanges s d
  · funext s d; exact hb.ListShardingRules s d
  · funext s k c; exact hb.DeparseKeyWithRangesInternal s k c
  · funext s; exact hb.ConnectionActive s
  · funext s w r h; exact hb.ProcessMessageBuf s w r h
  · funext s m w r h; exact hb.ProcessMessage s m w r h
  · funext s st tag; exact hb.ReplyCommandComplete s st tag
  · funext s m; exact hb.Send s m

theorem ReplyCommandComplete_blind (env : Env) (s1 s2 : RelayState) (st : TXStatus)
    (tag : String) (h : s1.eraseMsg = s2.eraseMsg) :
    eraseResult (ReplyCommandComplete env.blind s1 st tag)
      = eraseResult (ReplyCommandComplete env.blind s2 st tag) := by
  simp only [eraseResult, ReplyCommandComplete, Env.blind, eraseMsg_log, h]

theorem procQuerySwitch_msg (env : Env) (hb : env.MessageBlind) (s : RelayState)
    (state : ParseState) (m1 m2 : FrontendMessage) (hint : Option RouteHint) :
    (procQuerySwitch env s state m1 hint).map eraseResult
      = (procQuerySwitch env s state m2 hint).map eraseResult := by
  rw [Env.MessageBlind.eq_blind env hb]
  cases state with
  | ParseStateTXBegin Options =>
    by_cases hidle : s.txStatus = .TXIDLE
    · have h0 : (((s.AddSilentQuery m1).SetTxStatus TXStatus.TXACT).StartTx).eraseMsg
          = (((s.AddSilentQuery m2).SetTxStatus TXStatus.TXACT).StartTx).eraseMsg := by
        simp [RelayState.eraseMsg, RelayState.log, RelayState.AddSilentQuery,
          RelayState.SetTxStatus, RelayState.StartTx, Event.eraseMsg]
      have h1 : (applyTxOptions (((s.AddSilentQuery m1).SetTxStatus TXStatus.TXACT).StartTx)
            Options).eraseMsg
          = (applyTxOptions (((s.AddSilentQuery m2).SetTxStatus TXStatus.TXACT).StartTx)
            Options).eraseMsg := by
        rw [applyTxOptions_eraseMsg, applyTxOptions_eraseMsg, h0]
      have h2 := congrArg RelayState.txStatus h1
      simp only [RelayState.eraseMsg] at h2
      simp only [procQuerySwitch, RelayState.TxStatus, hidle, ne_eq, not_true_eq_false,
        if_false, Option.map_some', h2]
      rw [ReplyCommandComplete_blind env _ _ _ _ h1]
    · simp only [procQuerySwitch, RelayState.TxStatus, ne_eq, hidle, not_false_eq_true,
        if_true]
  | _ =>
    simp [procQuerySwitch, Env.blind, eraseResult, RelayState.eraseMsg, Event.eraseMsg,
        RelayState.log, RelayState.ReplyWarningf, RelayState.AddQuery,
        RelayState.CommitActiveSet, RelayState.Rollback, RelayState.SetParam,
        RelayState.ResetParam, RelayState.ResetAll, RelayState.StorePreparedStatement,
        RelayState.PreparedStatementQueryByName, RelayState.ReplyErrMsg, RelayState.Params,
        RelayState.TxStatus,
        ReplyCommandComplete, Send, ConnectionActive, ProcessMessageBuf, RelayProcessMessage]
    all_goals (repeat' split)
    all_goals simp_all [eraseResult, RelayState.eraseMsg, Event.eraseMsg]
theorem procQuery_msg (env : Env) (hb : env.MessageBlind) (rst : RelayState) (t : String)
    (m1 m2 : FrontendMessage) :
    (procQuery env rst t m1).map eraseResult = (procQuery env rst t m2).map eraseResult := by
  unfold procQuery
  split
  · rfl
  · exact procQuerySwitch_msg env hb _ _ m1 m2 _

theorem filter_isReply_eraseMsg (l : List Event) :
    (l.map Event.eraseMsg).filter Event.isReply = l.filter Event.isReply := by
  induction l with
  | nil => rfl
  | cons e l ih => cases e <;> simp_all [Event.eraseMsg, Event.isReply, List.filter_cons]

theorem filter_isForward_eraseMsg (l : List Event) :
    (l.map Event.eraseMsg).filter Event.isForward = l.filter Event.isForward := by
  induction l with
  | nil => rfl
  | cons e l ih => cases e <;> simp_all [Event.eraseMsg, Event.isForward, List.filter_cons]

theorem emitted_eraseMsg (rst r1 r2 : RelayState) (h : r1.eraseMsg = r2.eraseMsg) :
    (emitted rst r1).map Event.eraseMsg = (emitted rst r2).map Event.eraseMsg := by
  have ht := congrArg RelayState.trace h
  simp only [RelayState.eraseMsg] at ht
  simp only [emitted, List.map_drop, ht]

theorem ProcessMessage_Terminate (env : Env) (rst : RelayState) :
    ProcessMessage env rst .Terminate = some (rst, none) := by
  unfold ProcessMessage
  split <;> rfl

/-! ## Properties of `deparseRouteHint`, `procQuery` and `ProcessMessage` -/

/-- C1: on a TxCommit statement, with the pool manager reporting an active shard
connection and `ProcessMessageBuf` reporting `out`: in state Active `procQuery`
enqueues the message with `AddQuery`, calls `ProcessMessageBuf`, returns its error and
calls `CommitActiveSet` exactly when it reported success; in state Failed `procQuery`
does none of this: it answers locally with the warning "there is no transaction in
progress" and CommandComplete "COMMIT", nothing is enqueued or forwarded,
`CommitActiveSet` is not called and `txStatus` stays Failed. -/
theorem procQuery_commit_failed_not_forwarded (env : Env) (rst : RelayState)
    (query comment : String) (msg : FrontendMessage) (out : RelayOutcome)
    (hparse : env.Parse query = .ok (.ParseStateTXCommit, comment))
    (hconn : ∀ s, env.ConnectionActive s = true)
    (hout : ∀ s w r h, env.ProcessMessageBuf s w r h = out) :
    (rst.txStatus = .TXACT →
      ∃ rst1, procQuery env rst query msg = some (rst1, out.err)
        ∧ (emitted rst rst1).filter Event.isEnqueue = [.AddQuery msg]
        ∧ (emitted rst rst1).filter Event.isForward
            = [.ProcessMessageBuf true true (commentRouteHint env rst comment).2]
        ∧ (emitted rst rst1).filter Event.isReply = []
        ∧ (Event.CommitActiveSet ∈ emitted rst rst1 ↔ out.ok = true))
    ∧ (rst.txStatus = .TXERR →
      ∃ rst1 err, procQuery env rst query msg = some (rst1, err)
        ∧ rst1.txStatus = .TXERR
        ∧ (emitted rst rst1).filter Event.isReply
            = [.ReplyWarningf "there is no transaction in progress",
               .ReplyCommandComplete .TXERR "COMMIT"]
        ∧ (emitted rst rst1).filter Event.isEnqueue = []
        ∧ (emitted rst rst1).filter Event.isForward = []
        ∧ Event.CommitActiveSet ∉ emitted rst rst1) := by
  obtain ⟨evs, tsa, h1, h2⟩ := commentRouteHint_state env rst comment
  obtain ⟨hr, hq, hf⟩ := commentCall_filters evs h2
  have hca : Event.CommitActiveSet ∉ evs := fun hm => by
    simpa [Event.isCommentCall] using h2 _ hm
  constructor
  · intro htx
    simp only [procQuery, hparse, procQuerySwitch, h1, RelayState.TxStatus, htx, ne_eq,
      not_true_eq_false, if_false, ConnectionActive, hconn, Bool.not_true, Bool.false_eq_true,
      ProcessMessageBuf, hout, RelayState.log, RelayState.AddQuery, RelayState.CommitActiveSet]
    refine ⟨_, rfl, ?_, ?_, ?_, ?_⟩ <;> cases out.ok <;>
      simp [emitted, List.filter_append, hr, hq, hf, hca, Event.isReply, Event.isEnqueue,
        Event.isForward]
  · intro htx
    simp only [procQuery, hparse, procQuerySwitch, h1, RelayState.TxStatus, htx, ne_eq,
      reduceCtorEq, not_false_eq_true, if_true, ReplyCommandComplete, RelayState.log,
      RelayState.ReplyWarningf]
    refine ⟨_, _, rfl, rfl, ?_, ?_, ?_, ?_⟩ <;>
      simp [emitted, List.filter_append, hr, hq, hf, hca, Event.isReply, Event.isEnqueue,
        Event.isForward]

/-- C1, at a sample session in state Failed with an active shard connection: the
COMMIT is answered locally and nothing is forwarded. -/
theorem procQuery_commit_failed_not_forwarded_witness :
    ∃ rst1 err,
      procQuery (sampleEnv (classifyAs .ParseStateTXCommit) (commentPairs []) (.ok []) true
          okOutcome)
        (sampleSession .TXERR .PoolModeSession) "COMMIT" (.Query "COMMIT") = some (rst1, err)
      ∧ rst1.txStatus = .TXERR
      ∧ (emitted (sampleSession .TXERR .PoolModeSession) rst1).filter Event.isReply
          = [.ReplyWarningf "there is no transaction in progress",
             .ReplyCommandComplete .TXERR "COMMIT"]
      ∧ (emitted (sampleSession .TXERR .PoolModeSession) rst1).filter Event.isEnqueue = []
      ∧ (emitted (sampleSession .TXERR .PoolModeSession) rst1).filter Event.isForward = []
      ∧ Event.CommitActiveSet ∉ emitted (sampleSession .TXERR .PoolModeSession) rst1 :=
  (procQuery_commit_failed_not_forwarded
    (sampleEnv (classifyAs .ParseStateTXCommit) (commentPairs []) (.ok []) true okOutcome)
    (sampleSession .TXERR .PoolModeSession) "COMMIT" "" (.Query "COMMIT") okOutcome
    rfl (fun _ => rfl) (fun _ _ _ _ => rfl)).2 rfl

/-- C2: on a TxRollback statement, with `ProcessMessageBuf` reporting `out`: in state
Active `procQuery` enqueues the message with `AddQuery`, calls `ProcessMessageBuf`,
returns its error and calls `Client().Rollback()` exactly when it reported success; in
state Failed `procQuery` does none of this: it answers locally with the warning "there
is no transaction in progress" and CommandComplete "ROLLBACK", nothing is enqueued or
forwarded, `Rollback` is not called and `txStatus` stays Failed. -/
theorem procQuery_rollback_failed_not_forwarded (env : Env) (rst : RelayState)
    (query comment : String) (msg : FrontendMessage) (out : RelayOutcome)
    (hparse : env.Parse query = .ok (.ParseStateTXRollback, comment))
    (hout : ∀ s w r h, env.ProcessMessageBuf s w r h = out) :
    (rst.txStatus = .TXACT →
      ∃ rst1, procQuery env rst query msg = some (rst1, out.err)
        ∧ (emitted rst rst1).filter Event.isEnqueue = [.AddQuery msg]
        ∧ (emitted rst rst1).filter Event.isForward
            = [.ProcessMessageBuf true true (commentRouteHint env rst comment).2]
        ∧ (emitted rst rst1).filter Event.isReply = []
        ∧ (Event.Rollback ∈ emitted rst rst1 ↔ out.ok = true))
    ∧ (rst.txStatus = .TXERR →
      ∃ rst1 err, procQuery env rst query msg = some (rst1, err)
        ∧ rst1.txStatus = .TXERR
        ∧ (emitted rst rst1).filter Event.isReply
            = [.ReplyWarningf "there is no transaction in progress",
               .ReplyCommandComplete .TXERR "ROLLBACK"]
        ∧ (emitted rst rst1).filter Event.isEnqueue = []
        ∧ (emitted rst rst1).filter Event.isForward = []
        ∧ Event.Rollback ∉ emitted rst rst1) := by
  obtain ⟨evs, tsa, h1, h2⟩ := commentRouteHint_state env rst comment
  obtain ⟨hr, hq, hf⟩ := commentCall_filters evs h2
  have hca : Event.Rollback ∉ evs := fun hm => by
    simpa [Event.isCommentCall] using h2 _ hm
  constructor
  · intro htx
    simp only [procQuery, hparse, procQuerySwitch, h1, RelayState.TxStatus, htx, ne_eq,
      not_true_eq_false, if_false,
      ProcessMessageBuf, hout, RelayState.log, RelayState.AddQuery, RelayState.Rollback]
    refine ⟨_, rfl, ?_, ?_, ?_, ?_⟩ <;> cases out.ok <;>
      simp [emitted, List.filter_append, hr, hq, hf, hca, Event.isReply, Event.isEnqueue,
        Event.isForward]
  · intro htx
    simp only [procQuery, hparse, procQuerySwitch, h1, RelayState.TxStatus, htx, ne_eq,
      reduceCtorEq, not_false_eq_true, if_true, ReplyCommandComplete, RelayState.log,
      RelayState.ReplyWarningf]
    refine ⟨_, _, rfl, rfl, ?_, ?_, ?_, ?_⟩ <;>
      simp [emitted, List.filter_append, hr, hq, hf, hca, Event.isReply, Event.isEnqueue,
        Event.isForward]

/-- C2, at a sample session in state Failed: the ROLLBACK is answered locally and
nothing is forwarded. -/
theorem procQuery_rollback_failed_not_forwarded_witness :
    ∃ rst1 err,
      procQuery (sampleEnv (classifyAs .ParseStateTXRollback) (commentPairs []) (.ok []) true
          okOutcome)
        (sampleSession .TXERR .PoolModeSession) "ROLLBACK" (.Query "ROLLBACK")
        = some (rst1, err)
      ∧ rst1.txStatus = .TXERR
      ∧ (emitted (sampleSession .TXERR .PoolModeSession) rst1).filter Event.isReply
          = [.ReplyWarningf "there is no transaction in progress",
             .ReplyCommandComplete .TXERR "ROLLBACK"]
      ∧ (emitted (sampleSession .TXERR .PoolModeSession) rst1).filter Event.isEnqueue = []
      ∧ (emitted (sampleSession .TXERR .PoolModeSession) rst1).filter Event.isForward = []
      ∧ Event.Rollback ∉ emitted (sampleSession .TXERR .PoolModeSession) rst1 :=
  (procQuery_rollback_failed_not_forwarded
    (sampleEnv (classifyAs .ParseStateTXRollback) (commentPairs []) (.ok []) true okOutcome)
    (sampleSession .TXERR .PoolModeSession) "ROLLBACK" "" (.Query "ROLLBACK") okOutcome
    rfl (fun _ _ _ _ => rfl)).2 rfl

/-- C3 (as amended): when the comment of a statement parses to `mp` and
`deparseRouteHint` fails on it, `procQuery` does not return that failure.  The lookup
was made in this call (`ListKeyRanges` is in the trace) and its error is dropped; the
statement is still handled: a statement of the `default` case is enqueued with
`AddQuery` and forwarded with one call of `ProcessMessageBuf`, and the error
`procQuery` returns is the one `ProcessMessageBuf` reports. -/
theorem procQuery_drops_route_hint_error (env : Env) (rst : RelayState)
    (query comment : String) (msg : FrontendMessage) (tag : Nat)
    (mp : List (String × String)) (e : GoError) (out : RelayOutcome)
    (hparse : env.Parse query = .ok (.Other tag, comment))
    (hcomment : env.ParseComment comment = .ok mp)
    (hfail : (deparseRouteHint env rst mp rst.DS).2.2 = some e)
    (hout : ∀ s w r h, env.ProcessMessageBuf s w r h = out) :
    ∃ rst1 hint, procQuery env rst query msg = some (rst1, out.err)
      ∧ Event.ListKeyRanges rst.DS ∈ emitted rst rst1
      ∧ (emitted rst rst1).filter Event.isEnqueue = [.AddQuery msg]
      ∧ (emitted rst rst1).filter Event.isForward = [.ProcessMessageBuf true true hint] := by
  obtain ⟨evs, tsa, h1, h2⟩ := commentRouteHint_state env rst comment
  obtain ⟨hr, hq, hf⟩ := commentCall_filters evs h2
  obtain ⟨tl, h3⟩ := deparseRouteHint_error_lookup env rst mp rst.DS e hfail
  obtain ⟨tl2, h4⟩ := commentRouteHint_trace_of_ok env rst comment mp hcomment
  have hmem : Event.ListKeyRanges rst.DS ∈ evs := by
    have h5 : rst.trace ++ evs = rst.trace ++ (Event.ListKeyRanges rst.DS :: tl ++ tl2) := by
      have := h4
      rw [h1, h3] at this
      simpa using this
    rw [List.append_cancel_left h5]
    simp
  simp only [procQuery, hparse, procQuerySwitch, h1,
    ProcessMessageBuf, hout, RelayState.log, RelayState.AddQuery]
  refine ⟨_, (commentRouteHint env rst comment).2, rfl, ?_, ?_, ?_⟩ <;>
    simp [emitted, List.filter_append, hr, hq, hf, hmem, Event.isReply, Event.isEnqueue,
      Event.isForward]

/-- C3 (as amended), at a sample statement whose comment carries a sharding key while
the metadata store is unavailable. -/
theorem procQuery_drops_route_hint_error_witness :
    ∃ rst1 hint,
      procQuery
          (sampleEnv (classifyAs (.Other 0)) (commentPairs [("__spqr__sharding_key", "42")])
            (.error metadataUnavailable) true okOutcome)
          (sampleSession .TXIDLE .PoolModeSession) "SELECT 1" (.Query "SELECT 1")
        = some (rst1, none)
      ∧ Event.ListKeyRanges "default" ∈ emitted (sampleSession .TXIDLE .PoolModeSession) rst1
      ∧ (emitted (sampleSession .TXIDLE .PoolModeSession) rst1).filter Event.isEnqueue
          = [.AddQuery (.Query "SELECT 1")]
      ∧ (emitted (sampleSession .TXIDLE .PoolModeSession) rst1).filter Event.isForward
          = [.ProcessMessageBuf true true hint] :=
  procQuery_drops_route_hint_error
    (sampleEnv (classifyAs (.Other 0)) (commentPairs [("__spqr__sharding_key", "42")])
      (.error metadataUnavailable) true okOutcome)
    (sampleSession .TXIDLE .PoolModeSession) "SELECT 1" "" (.Query "SELECT 1") 0
    [("__spqr__sharding_key", "42")] metadataUnavailable okOutcome
    rfl rfl (by decide) (fun _ _ _ _ => rfl)

/-- C3 (counterexample): the comment carries a sharding key and no scatter marker and
`ListKeyRanges` fails, so `deparseRouteHint` returns an error; yet `procQuery` returns
no error and the statement has been forwarded with `ProcessMessageBuf`. -/
theorem procQuery_route_hint_error_not_surfaced :
    (deparseRouteHint
        (sampleEnv (classifyAs (.Other 0)) (commentPairs [("__spqr__sharding_key", "42")])
          (.error metadataUnavailable) true okOutcome)
        (sampleSession .TXIDLE .PoolModeSession) [("__spqr__sharding_key", "42")]
        "default").2.2 = some metadataUnavailable
    ∧ ∃ rst1,
      procQuery
          (sampleEnv (classifyAs (.Other 0)) (commentPairs [("__spqr__sharding_key", "42")])
            (.error metadataUnavailable) true okOutcome)
          (sampleSession .TXIDLE .PoolModeSession) "SELECT 1" (.Query "SELECT 1")
        = some (rst1, none)
      ∧ (emitted (sampleSession .TXIDLE .PoolModeSession) rst1).filter Event.isForward ≠ [] := by
  refine ⟨by decide, _, rfl, by decide⟩

/-- C4: under Transaction pooling, dispatching any sequence of Parse, Bind, Describe
and Execute messages with `ProcessMessage` returns no error and makes exactly one call
per message, `AddExtendedProtocMessage` of that message, in arrival order (so none is
forwarded), which appends the messages to the extended queue.  The following Sync
makes exactly one call, `ProcessExtendedBuffer`, on the queue in that order, and leaves
the queue empty; a second Sync right after calls `ProcessExtendedBuffer` on the empty
batch. -/
theorem transaction_pooling_extended_batch (env : Env) (rst : RelayState)
    (msgs : List FrontendMessage)
    (hmode : rst.PoolMode = .PoolModeTransaction)
    (hext : ∀ m ∈ msgs, m.isExtended = true) :
    ∃ rst1, dispatchAll env rst msgs = some (rst1, none)
      ∧ emitted rst rst1 = msgs.map Event.AddExtendedProtocMessage
      ∧ rst1.extendedQueue = rst.extendedQueue ++ msgs
      ∧ ∃ rst2 err2, ProcessMessage env rst1 .Sync = some (rst2, err2)
        ∧ emitted rst1 rst2 = [.ProcessExtendedBuffer (rst.extendedQueue ++ msgs)]
        ∧ rst2.extendedQueue = []
        ∧ ∃ rst3 err3, ProcessMessage env rst2 .Sync = some (rst3, err3)
          ∧ emitted rst2 rst3 = [.ProcessExtendedBuffer []]
          ∧ rst3.extendedQueue = [] := by
  refine ⟨_, dispatchAll_extended env msgs rst hmode hext, ?_, rfl, ?_⟩
  · simp [emitted]
  · simp only [ProcessMessage, hmode, ne_eq, not_true_eq_false, if_false,
      ProcessExtendedBuffer, RelayState.log]
    refine ⟨_, _, rfl, ?_, rfl, _, _, rfl, ?_, rfl⟩ <;>
      exact emitted_append _ _ _ rfl

/-- C4, at Parse, Bind, Describe, Execute followed by two Syncs in a sample session
under Transaction pooling. -/
theorem transaction_pooling_extended_batch_witness :
    ∃ rst1,
      dispatchAll (sampleEnv (classifyAs (.Other 0)) (commentPairs []) (.ok []) true okOutcome)
          (sampleSession .TXIDLE .PoolModeTransaction)
          [.Parse "s1" "SELECT 1", .Bind "" "s1", .Describe 80 "", .Execute "" 0]
        = some (rst1, none)
      ∧ emitted (sampleSession .TXIDLE .PoolModeTransaction) rst1
          = [.Parse "s1" "SELECT 1", .Bind "" "s1", .Describe 80 "", .Execute "" 0].map
              Event.AddExtendedProtocMessage
      ∧ rst1.extendedQueue
          = (sampleSession .TXIDLE .PoolModeTransaction).extendedQueue
            ++ [.Parse "s1" "SELECT 1", .Bind "" "s1", .Describe 80 "", .Execute "" 0]
      ∧ ∃ rst2 err2,
        ProcessMessage (sampleEnv (classifyAs (.Other 0)) (commentPairs []) (.ok []) true
            okOutcome) rst1 .Sync = some (rst2, err2)
        ∧ emitted rst1 rst2
            = [.ProcessExtendedBuffer
                ((sampleSession .TXIDLE .PoolModeTransaction).extendedQueue
                  ++ [.Parse "s1" "SELECT 1", .Bind "" "s1", .Describe 80 "", .Execute "" 0])]
        ∧ rst2.extendedQueue = []
        ∧ ∃ rst3 err3,
          ProcessMessage (sampleEnv (classifyAs (.Other 0)) (commentPairs []) (.ok []) true
              okOutcome) rst2 .Sync = some (rst3, err3)
          ∧ emitted rst2 rst3 = [.ProcessExtendedBuffer []]
          ∧ rst3.extendedQueue = [] :=
  transaction_pooling_extended_batch
    (sampleEnv (classifyAs (.Other 0)) (commentPairs []) (.ok []) true okOutcome)
    (sampleSession .TXIDLE .PoolModeTransaction)
    [.Parse "s1" "SELECT 1", .Bind "" "s1", .Describe 80 "", .Execute "" 0]
    rfl (by decide)

/-- C5: after `procQuery` has handled SetStmt with name "__spqr__" ++ s and value v,
the session parameter stored under the lower-cased suffix is v, and a following
`procQuery` on ShowStmt with name "__spqr__" ++ s replies RowDescription, a DataRow
with the single value v, and CommandComplete "SHOW"; both calls return no error and
neither enqueues or forwards anything. -/
theorem spqr_param_set_show_roundtrip (env : Env) (rst : RelayState)
    (q1 q2 c1 c2 s v : String) (m1 m2 : FrontendMessage)
    (hset : env.Parse q1 = .ok (.ParseStateSetStmt ("__spqr__" ++ s) v, c1))
    (hshow : env.Parse q2 = .ok (.ParseStateShowStmt ("__spqr__" ++ s), c2)) :
    ∃ rst1 rst2, procQuery env rst q1 m1 = some (rst1, none)
      ∧ procQuery env rst1 q2 m2 = some (rst2, none)
      ∧ mapIndex rst1.params (env.ToLower s) = v
      ∧ (emitted rst1 rst2).filter Event.isReply
          = [.Send (.RowDescription [25]), .Send (.DataRow [v]),
             .ReplyCommandComplete rst.txStatus "SHOW"]
      ∧ (emitted rst rst2).filter Event.isEnqueue = []
      ∧ (emitted rst rst2).filter Event.isForward = [] := by
  obtain ⟨evs1, tsa1, hc1, hp1⟩ := procQuery_set_internal env rst q1 c1 s v m1 hset
  obtain ⟨hr1, hq1, hf1⟩ := commentCall_filters evs1 hc1
  obtain ⟨evs2, tsa2, hc2, hp2⟩ := procQuery_show_internal env
    { rst with
      tsa := tsa1
      params := setParam rst.params (env.ToLower s) v
      trace := rst.trace ++ (evs1 ++ [.SetParam (env.ToLower s) v,
        .ReplyCommandComplete rst.txStatus "SET"]) } q2 c2 s m2 hshow
  obtain ⟨hr2, hq2, hf2⟩ := commentCall_filters evs2 hc2
  refine ⟨_, _, hp1, hp2, mapIndex_setParam _ _ _, ?_, ?_, ?_⟩
  · rw [emitted_append _ _ _ rfl]
    simp [List.filter_append, hr2, Event.isReply, mapIndex_setParam]
  · rw [emitted_append _ _ (evs1 ++ [.SetParam (env.ToLower s) v,
        .ReplyCommandComplete rst.txStatus "SET"] ++ (evs2 ++ [.Send (.RowDescription [25]),
        .Send (.DataRow [mapIndex (setParam rst.params (env.ToLower s) v) (env.ToLower s)]),
        .ReplyCommandComplete rst.txStatus "SHOW"])) (by simp)]
    simp [List.filter_append, hq1, hq2, Event.isEnqueue]
  · rw [emitted_append _ _ (evs1 ++ [.SetParam (env.ToLower s) v,
        .ReplyCommandComplete rst.txStatus "SET"] ++ (evs2 ++ [.Send (.RowDescription [25]),
        .Send (.DataRow [mapIndex (setParam rst.params (env.ToLower s) v) (env.ToLower s)]),
        .ReplyCommandComplete rst.txStatus "SHOW"])) (by simp)]
    simp [List.filter_append, hf1, hf2, Event.isForward]

/-- C5, at the statements that set and show the router-private parameter `foo`. -/
theorem spqr_param_set_show_roundtrip_witness :
    ∃ rst1 rst2,
      procQuery (sampleEnv parseFoo (commentPairs []) (.ok []) false okOutcome)
          (sampleSession .TXIDLE .PoolModeSession) "SET __spqr__foo TO bar"
          (.Query "SET __spqr__foo TO bar") = some (rst1, none)
      ∧ procQuery (sampleEnv parseFoo (commentPairs []) (.ok []) false okOutcome)
          rst1 "SHOW __spqr__foo" (.Query "SHOW __spqr__foo") = some (rst2, none)
      ∧ mapIndex rst1.params
          ((sampleEnv parseFoo (commentPairs []) (.ok []) false okOutcome).ToLower "foo") = "bar"
      ∧ (emitted rst1 rst2).filter Event.isReply
          = [.Send (.RowDescription [25]), .Send (.DataRow ["bar"]),
             .ReplyCommandComplete (sampleSession .TXIDLE .PoolModeSession).txStatus "SHOW"]
      ∧ (emitted (sampleSession .TXIDLE .PoolModeSession) rst2).filter Event.isEnqueue = []
      ∧ (emitted (sampleSession .TXIDLE .PoolModeSession) rst2).filter Event.isForward = [] :=
  spqr_param_set_show_roundtrip
    (sampleEnv parseFoo (commentPairs []) (.ok []) false okOutcome)
    (sampleSession .TXIDLE .PoolModeSession) "SET __spqr__foo TO bar" "SHOW __spqr__foo" "" ""
    "foo" "bar" (.Query "SET __spqr__foo TO bar") (.Query "SHOW __spqr__foo")
    rfl rfl

/-- C6: when the parameter map of the comment contains the scatter marker key,
`deparseRouteHint` returns `ScatterRouteHint` with no error, whatever else the map
contains, and leaves the relay state as it was: no call is made, in particular none
to the routing metadata store. -/
theorem deparseRouteHint_scatter (env : Env) (rst : RelayState)
    (params : List (String × String)) (dataspace : String)
    (hscatter : (params.lookup env.SPQR_SCATTER_QUERY).isSome = true) :
    deparseRouteHint env rst params dataspace = (rst, some .ScatterRouteHint, none)
      ∧ emitted rst (deparseRouteHint env rst params dataspace).1 = [] := by
  obtain ⟨v, hv⟩ := Option.isSome_iff_exists.mp hscatter
  have h : deparseRouteHint env rst params dataspace = (rst, some .ScatterRouteHint, none) := by
    simp [deparseRouteHint, hv]
  exact ⟨h, by simp [h, emitted]⟩

/-- C6, at a map that carries both the scatter marker and a sharding key, with the
metadata store unavailable. -/
theorem deparseRouteHint_scatter_witness :
    deparseRouteHint
        (sampleEnv (classifyAs (.Other 0)) (commentPairs []) (.error metadataUnavailable) false
          okOutcome)
        (sampleSession .TXIDLE .PoolModeSession)
        [("__spqr__sharding_key", "42"), ("__spqr__scatter_query", "true")] "default"
      = (sampleSession .TXIDLE .PoolModeSession, some .ScatterRouteHint, none)
    ∧ emitted (sampleSession .TXIDLE .PoolModeSession)
        (deparseRouteHint
          (sampleEnv (classifyAs (.Other 0)) (commentPairs []) (.error metadataUnavailable)
            false okOutcome)
          (sampleSession .TXIDLE .PoolModeSession)
          [("__spqr__sharding_key", "42"), ("__spqr__scatter_query", "true")] "default").1
      = [] :=
  deparseRouteHint_scatter _ _ _ _ (by decide)

/-- C7: when the parameter map contains a sharding-key value and no scatter marker,
`deparseRouteHint` never returns `EmptyRouteHint`: it returns either a
`TargetRouteHint` and no error, or no hint and an error.  It returns the error of
`ListKeyRanges`, of `ListShardingRules` or of the key match when that call fails, and
the `TargetRouteHint` of the route the key match computes when all three succeed.
For every map, `EmptyRouteHint` is returned exactly when the map contains neither
key. -/
theorem deparseRouteHint_sharding_key (env : Env) (rst : RelayState)
    (params : List (String × String)) (dataspace val : String)
    (hscatter : params.lookup env.SPQR_SCATTER_QUERY = none)
    (hkey : params.lookup env.SPQR_SHARDING_KEY = some val) :
    (deparseRouteHint env rst params dataspace).2.1 ≠ some .EmptyRouteHint
    ∧ ((∃ ds, (deparseRouteHint env rst params dataspace).2 = (some (.TargetRouteHint ds), none))
        ∨ (∃ err, (deparseRouteHint env rst params dataspace).2 = (none, some err)))
    ∧ (∀ err, env.ListKeyRanges (rst.log (.ListKeyRanges dataspace)) dataspace = .error err →
        (deparseRouteHint env rst params dataspace).2 = (none, some err))
    ∧ (∀ krs, env.ListKeyRanges (rst.log (.ListKeyRanges dataspace)) dataspace = .ok krs →
        (∀ err, env.ListShardingRules
            ((rst.log (.ListKeyRanges dataspace)).log (.ListShardingRules dataspace))
            dataspace = .error err →
          (deparseRouteHint env rst params dataspace).2 = (none, some err))
        ∧ (∀ rls, env.ListShardingRules
            ((rst.log (.ListKeyRanges dataspace)).log (.ListShardingRules dataspace))
            dataspace = .ok rls →
          (∀ err, env.DeparseKeyWithRangesInternal
              (((rst.log (.ListKeyRanges dataspace)).log (.ListShardingRules dataspace)).log
                (.DeparseKeyWithRangesInternal val ⟨krs, rls, dataspace⟩))
              val ⟨krs, rls, dataspace⟩ = .error err →
            (deparseRouteHint env rst params dataspace).2 = (none, some err))
          ∧ (∀ ds, env.DeparseKeyWithRangesInternal
              (((rst.log (.ListKeyRanges dataspace)).log (.ListShardingRules dataspace)).log
                (.DeparseKeyWithRangesInternal val ⟨krs, rls, dataspace⟩))
              val ⟨krs, rls, dataspace⟩ = .ok ds →
            (deparseRouteHint env rst params dataspace).2
              = (some (.TargetRouteHint ds), none))))
    ∧ (∀ mp : List (String × String),
        (deparseRouteHint env rst mp dataspace).2.1 = some .EmptyRouteHint
          ↔ (mp.lookup env.SPQR_SCATTER_QUERY = none
              ∧ mp.lookup env.SPQR_SHARDING_KEY = none)) := by
  refine ⟨?_, ?_, ?_, ?_, ?_⟩
  · simp only [deparseRouteHint, hscatter, hkey]
    split
    · simp
    · split
      · simp
      · split <;> simp
  · simp only [deparseRouteHint, hscatter, hkey]
    split
    · exact Or.inr ⟨_, rfl⟩
    · split
      · exact Or.inr ⟨_, rfl⟩
      · split
        · exact Or.inr ⟨_, rfl⟩
        · exact Or.inl ⟨_, rfl⟩
  · intro err h
    simp [deparseRouteHint, hscatter, hkey, h]
  · intro krs h
    refine ⟨?_, ?_⟩
    · intro err h1
      simp [deparseRouteHint, hscatter, hkey, h, h1]
    · intro rls h1
      refine ⟨?_, ?_⟩
      · intro err h2
        simp [deparseRouteHint, hscatter, hkey, h, h1, h2]
      · intro ds h2
        simp [deparseRouteHint, hscatter, hkey, h, h1, h2]
  · intro mp
    unfold deparseRouteHint
    split
    · rename_i hs; simp [hs]
    · rename_i hs
      split
      · rename_i v hk
        simp only [hs, hk]
        split
        · simp
        · split
          · simp
          · split <;> simp
      · rename_i hk; simp [hs, hk]

/-- C7, at a map that carries the sharding key 42: with the metadata store answering,
the hint is the target the key match computes; with the store unavailable, the result
is its error. -/
theorem deparseRouteHint_sharding_key_witness :
    (deparseRouteHint
        (sampleEnv (classifyAs (.Other 0)) (commentPairs []) (.ok []) false okOutcome)
        (sampleSession .TXIDLE .PoolModeSession) [("__spqr__sharding_key", "42")] "default").2
      = (some (.TargetRouteHint "42"), none)
    ∧ (deparseRouteHint
        (sampleEnv (classifyAs (.Other 0)) (commentPairs []) (.error metadataUnavailable) false
          okOutcome)
        (sampleSession .TXIDLE .PoolModeSession) [("__spqr__sharding_key", "42")] "default").2
      = (none, some metadataUnavailable) :=
  ⟨((((deparseRouteHint_sharding_key
      (sampleEnv (classifyAs (.Other 0)) (commentPairs []) (.ok []) false okOutcome)
      (sampleSession .TXIDLE .PoolModeSession) [("__spqr__sharding_key", "42")] "default" "42"
      (by decide) (by decide)).2.2.2.1 [] rfl).2 [] rfl).2 "42" rfl),
   (deparseRouteHint_sharding_key
      (sampleEnv (classifyAs (.Other 0)) (commentPairs []) (.error metadataUnavailable) false
        okOutcome)
      (sampleSession .TXIDLE .PoolModeSession) [("__spqr__sharding_key", "42")] "default" "42"
      (by decide) (by decide)).2.2.1 metadataUnavailable rfl⟩

/-- C8: in state Idle, `procQuery` on a TxBegin statement returns with `txStatus`
Active, the only reply to the client is CommandComplete "BEGIN" carrying status
Active, the message is recorded with `AddSilentQuery` and with no other enqueueing
call, `SetTxStatus(Active)` is called, and no forwarding call of the relay
(`ProcessMessage`, `ProcessMessageBuf`) is made. -/
theorem procQuery_begin_idle (env : Env) (rst : RelayState) (query comment : String)
    (msg : FrontendMessage) (Options : List TransactionModeItem)
    (hparse : env.Parse query = .ok (.ParseStateTXBegin Options, comment))
    (hidle : rst.txStatus = .TXIDLE) :
    ∃ rst1 err, procQuery env rst query msg = some (rst1, err)
      ∧ rst1.txStatus = .TXACT
      ∧ (emitted rst rst1).filter Event.isReply = [.ReplyCommandComplete .TXACT "BEGIN"]
      ∧ (emitted rst rst1).filter Event.isEnqueue = [.AddSilentQuery msg]
      ∧ (emitted rst rst1).filter Event.isForward = []
      ∧ Event.SetTxStatus .TXACT ∈ emitted rst rst1 := by
  obtain ⟨evs, tsa, h1, h2⟩ := commentRouteHint_state env rst comment
  obtain ⟨hr, hq, hf⟩ := commentCall_filters evs h2
  obtain ⟨evs2, tsa2, h3, h4⟩ := applyTxOptions_state Options
    ⟨.TXACT, rst.PoolMode, rst.PoolPreparedStatement, rst.RouterMode, rst.DS, tsa, rst.params,
      rst.preparedStatements, rst.extendedQueue,
      rst.trace ++ evs ++ [.AddSilentQuery msg] ++ [.SetTxStatus .TXACT] ++ [.StartTx]⟩
  obtain ⟨hr2, hq2, hf2⟩ := commentCall_filters evs2 h4
  simp only [procQuery, hparse, procQuerySwitch, h1, RelayState.TxStatus, hidle, ne_eq,
    not_true_eq_false, if_false, ReplyCommandComplete, RelayState.log,
    RelayState.AddSilentQuery, RelayState.SetTxStatus, RelayState.StartTx, h3]
  refine ⟨_, _, rfl, rfl, ?_, ?_, ?_, ?_⟩ <;>
    simp [emitted, List.filter_append, hr, hq, hf, hr2, hq2, hf2, Event.isReply, Event.isEnqueue,
      Event.isForward]

/-- C8, at BEGIN READ ONLY in a sample session in state Idle. -/
theorem procQuery_begin_idle_witness :
    ∃ rst1 err,
      procQuery
          (sampleEnv (classifyAs (.ParseStateTXBegin [.TransactionReadOnly])) (commentPairs [])
            (.ok []) false okOutcome)
          (sampleSession .TXIDLE .PoolModeSession) "BEGIN READ ONLY" (.Query "BEGIN READ ONLY")
        = some (rst1, err)
      ∧ rst1.txStatus = .TXACT
      ∧ (emitted (sampleSession .TXIDLE .PoolModeSession) rst1).filter Event.isReply
          = [.ReplyCommandComplete .TXACT "BEGIN"]
      ∧ (emitted (sampleSession .TXIDLE .PoolModeSession) rst1).filter Event.isEnqueue
          = [.AddSilentQuery (.Query "BEGIN READ ONLY")]
      ∧ (emitted (sampleSession .TXIDLE .PoolModeSession) rst1).filter Event.isForward = []
      ∧ Event.SetTxStatus .TXACT ∈ emitted (sampleSession .TXIDLE .PoolModeSession) rst1 :=
  procQuery_begin_idle
    (sampleEnv (classifyAs (.ParseStateTXBegin [.TransactionReadOnly])) (commentPairs [])
      (.ok []) false okOutcome)
    (sampleSession .TXIDLE .PoolModeSession) "BEGIN READ ONLY" "" (.Query "BEGIN READ ONLY")
    [.TransactionReadOnly] rfl rfl

/-- C9: in state Active or Failed, `procQuery` on a TxBegin statement returns with
`txStatus` unchanged and without calling `SetTxStatus`, the replies to the client are
the warning "there is already transaction in progress" and then CommandComplete
"BEGIN", in that order, and the statement is neither enqueued nor forwarded. -/
theorem procQuery_begin_in_transaction (env : Env) (rst : RelayState) (query comment : String)
    (msg : FrontendMessage) (Options : List TransactionModeItem)
    (hparse : env.Parse query = .ok (.ParseStateTXBegin Options, comment))
    (htx : rst.txStatus = .TXACT ∨ rst.txStatus = .TXERR) :
    ∃ rst1 err, procQuery env rst query msg = some (rst1, err)
      ∧ rst1.txStatus = rst.txStatus
      ∧ (∀ st, Event.SetTxStatus st ∉ emitted rst rst1)
      ∧ (emitted rst rst1).filter Event.isReply
          = [.ReplyWarningf "there is already transaction in progress",
             .ReplyCommandComplete rst.txStatus "BEGIN"]
      ∧ (emitted rst rst1).filter Event.isEnqueue = []
      ∧ (emitted rst rst1).filter Event.isForward = [] := by
  obtain ⟨evs, tsa, h1, h2⟩ := commentRouteHint_state env rst comment
  obtain ⟨hr, hq, hf⟩ := commentCall_filters evs h2
  have hne : rst.txStatus ≠ .TXIDLE := by rcases htx with h | h <;> simp [h]
  have hset : ∀ st, Event.SetTxStatus st ∉ evs := fun st hm => by
    simpa [Event.isCommentCall] using h2 _ hm
  simp only [procQuery, hparse, procQuerySwitch, h1, RelayState.TxStatus, ne_eq, hne,
    not_false_eq_true, if_true, ReplyCommandComplete, RelayState.log, RelayState.ReplyWarningf]
  refine ⟨_, _, rfl, rfl, ?_, ?_, ?_, ?_⟩ <;>
    simp [emitted, List.filter_append, hr, hq, hf, hset, Event.isReply, Event.isEnqueue,
      Event.isForward]

/-- C9, at BEGIN in a sample session in state Failed. -/
theorem procQuery_begin_in_transaction_witness :
    ∃ rst1 err,
      procQuery
          (sampleEnv (classifyAs (.ParseStateTXBegin [])) (commentPairs []) (.ok []) false
            okOutcome)
          (sampleSession .TXERR .PoolModeSession) "BEGIN" (.Query "BEGIN") = some (rst1, err)
      ∧ rst1.txStatus = (sampleSession .TXERR .PoolModeSession).txStatus
      ∧ (∀ st, Event.SetTxStatus st ∉ emitted (sampleSession .TXERR .PoolModeSession) rst1)
      ∧ (emitted (sampleSession .TXERR .PoolModeSession) rst1).filter Event.isReply
          = [.ReplyWarningf "there is already transaction in progress",
             .ReplyCommandComplete (sampleSession .TXERR .PoolModeSession).txStatus "BEGIN"]
      ∧ (emitted (sampleSession .TXERR .PoolModeSession) rst1).filter Event.isEnqueue = []
      ∧ (emitted (sampleSession .TXERR .PoolModeSession) rst1).filter Event.isForward = [] :=
  procQuery_begin_in_transaction
    (sampleEnv (classifyAs (.ParseStateTXBegin [])) (commentPairs []) (.ok []) false okOutcome)
    (sampleSession .TXERR .PoolModeSession) "BEGIN" "" (.Query "BEGIN") [] rfl (Or.inr rfl)

/-- C10: in state Idle, `procQuery` on TxCommit or TxRollback returns with `txStatus`
Idle, the replies to the client are the warning "there is no transaction in progress"
and then CommandComplete tagged COMMIT or ROLLBACK respectively, nothing is enqueued
or forwarded, and the pool manager is not asked for an active connection. -/
theorem procQuery_commit_rollback_idle (env : Env) (rst : RelayState) (query comment : String)
    (msg : FrontendMessage) (state : ParseState) (tag : String)
    (hparse : env.Parse query = .ok (state, comment))
    (hstate : (state = .ParseStateTXCommit ∧ tag = "COMMIT")
      ∨ (state = .ParseStateTXRollback ∧ tag = "ROLLBACK"))
    (hidle : rst.txStatus = .TXIDLE) :
    ∃ rst1 err, procQuery env rst query msg = some (rst1, err)
      ∧ rst1.txStatus = .TXIDLE
      ∧ (emitted rst rst1).filter Event.isReply
          = [.ReplyWarningf "there is no transaction in progress",
             .ReplyCommandComplete .TXIDLE tag]
      ∧ (emitted rst rst1).filter Event.isEnqueue = []
      ∧ (emitted rst rst1).filter Event.isForward = []
      ∧ Event.ConnectionActive ∉ emitted rst rst1 := by
  obtain ⟨evs, tsa, h1, h2⟩ := commentRouteHint_state env rst comment
  obtain ⟨hr, hq, hf⟩ := commentCall_filters evs h2
  have hca : Event.ConnectionActive ∉ evs := fun hm => by
    simpa [Event.isCommentCall] using h2 _ hm
  rcases hstate with ⟨hs, ht⟩ | ⟨hs, ht⟩ <;> subst hs <;> subst ht <;>
  · simp only [procQuery, hparse, procQuerySwitch, h1, RelayState.TxStatus, hidle, ne_eq,
      reduceCtorEq, not_false_eq_true, if_true, ReplyCommandComplete, RelayState.log,
      RelayState.ReplyWarningf]
    refine ⟨_, _, rfl, rfl, ?_, ?_, ?_, ?_⟩ <;>
      simp [emitted, List.filter_append, hr, hq, hf, hca, Event.isReply, Event.isEnqueue,
        Event.isForward]

/-- C10, at COMMIT in a sample session in state Idle with no shard connection. -/
theorem procQuery_commit_rollback_idle_witness :
    ∃ rst1 err,
      procQuery
          (sampleEnv (classifyAs .ParseStateTXCommit) (commentPairs []) (.ok []) false okOutcome)
          (sampleSession .TXIDLE .PoolModeSession) "COMMIT" (.Query "COMMIT") = some (rst1, err)
      ∧ rst1.txStatus = .TXIDLE
      ∧ (emitted (sampleSession .TXIDLE .PoolModeSession) rst1).filter Event.isReply
          = [.ReplyWarningf "there is no transaction in progress",
             .ReplyCommandComplete .TXIDLE "COMMIT"]
      ∧ (emitted (sampleSession .TXIDLE .PoolModeSession) rst1).filter Event.isEnqueue = []
      ∧ (emitted (sampleSession .TXIDLE .PoolModeSession) rst1).filter Event.isForward = []
      ∧ Event.ConnectionActive ∉ emitted (sampleSession .TXIDLE .PoolModeSession) rst1 :=
  procQuery_commit_rollback_idle
    (sampleEnv (classifyAs .ParseStateTXCommit) (commentPairs []) (.ok []) false okOutcome)
    (sampleSession .TXIDLE .PoolModeSession) "COMMIT" "" (.Query "COMMIT") .ParseStateTXCommit
    "COMMIT" rfl (Or.inl ⟨rfl, rfl⟩) rfl

/-! ## Properties of the session handlers and of `Frontend` -/

/-- C11 (as amended): on ResetMetadataStmt, with the pool manager answering `active`
and `ProcessMessageBuf` reporting `out`: when a shard connection is active and
forwarding fails, `procQuery` returns that error and resets nothing, the session
parameters are what they were; otherwise (no connection, or forwarding without
error) the named setting is reset, and "role" is reset in the same call exactly when
the setting is "session_authorization". -/
theorem procQuery_reset_metadata (env : Env) (rst : RelayState)
    (query comment Setting : String) (msg : FrontendMessage) (active : Bool)
    (out : RelayOutcome)
    (hparse : env.Parse query = .ok (.ParseStateResetMetadataStmt Setting, comment))
    (hconn : ∀ s, env.ConnectionActive s = active)
    (hout : ∀ s w r h, env.ProcessMessageBuf s w r h = out) :
    ∃ rst1 err, procQuery env rst query msg = some (rst1, err)
      ∧ ((active = true ∧ out.err ≠ none) →
          err = out.err ∧ rst1.params = rst.params
            ∧ (emitted rst rst1).filter Event.isResetParam = [])
      ∧ ((active = false ∨ out.err = none) →
          (Setting = "session_authorization" →
            rst1.params = resetParam (resetParam rst.params Setting) "role"
              ∧ (emitted rst rst1).filter Event.isResetParam
                  = [.ResetParam Setting, .ResetParam "role"])
          ∧ (Setting ≠ "session_authorization" →
            rst1.params = resetParam rst.params Setting
              ∧ (emitted rst rst1).filter Event.isResetParam = [.ResetParam Setting])) := by
  obtain ⟨evs, tsa, h1, h2⟩ := commentRouteHint_state env rst comment
  obtain ⟨hr, hs⟩ := commentCall_filters2 evs h2
  cases active with
  | true =>
    cases hoe : out.err with
    | some e =>
      simp only [procQuery, hparse, procQuerySwitch, h1, ConnectionActive, hconn, if_true,
        ProcessMessageBuf, hout, hoe, RelayState.log, RelayState.AddQuery]
      refine ⟨_, _, rfl, ?_, ?_⟩
      · intro _
        refine ⟨rfl, rfl, ?_⟩
        simp [emitted, List.filter_append, hr, Event.isResetParam]
      · intro h; simp at h
    | none =>
      by_cases hsa : Setting = "session_authorization"
      · simp only [procQuery, hparse, procQuerySwitch, h1, ConnectionActive, hconn, if_true,
          ProcessMessageBuf, hout, hoe, RelayState.log, RelayState.AddQuery,
          RelayState.ResetParam, hsa]
        refine ⟨_, _, rfl, ?_, ?_⟩
        · intro h; simp at h
        · intro _
          refine ⟨fun _ => ⟨rfl, ?_⟩, fun h => absurd rfl h⟩
          simp [emitted, List.filter_append, hr, Event.isResetParam]
      · simp only [procQuery, hparse, procQuerySwitch, h1, ConnectionActive, hconn, if_true,
          ProcessMessageBuf, hout, hoe, RelayState.log, RelayState.AddQuery,
          RelayState.ResetParam, hsa, if_false]
        refine ⟨_, _, rfl, ?_, ?_⟩
        · intro h; simp at h
        · intro _
          refine ⟨fun h => False.elim h, fun _ => ⟨rfl, ?_⟩⟩
          simp [emitted, List.filter_append, hr, Event.isResetParam]
  | false =>
    by_cases hsa : Setting = "session_authorization"
    · simp only [procQuery, hparse, procQuerySwitch, h1, ConnectionActive, hconn,
        Bool.false_eq_true, if_false, ReplyCommandComplete, RelayState.TxStatus,
        RelayState.log, RelayState.ResetParam, hsa, if_true]
      refine ⟨_, _, rfl, ?_, ?_⟩
      · intro h; simp at h
      · intro _
        refine ⟨fun _ => ⟨rfl, ?_⟩, fun h => absurd rfl h⟩
        simp [emitted, List.filter_append, hr, Event.isResetParam]
    · simp only [procQuery, hparse, procQuerySwitch, h1, ConnectionActive, hconn,
        Bool.false_eq_true, if_false, ReplyCommandComplete, RelayState.TxStatus,
        RelayState.log, RelayState.ResetParam, hsa]
      refine ⟨_, _, rfl, ?_, ?_⟩
      · intro h; simp at h
      · intro _
        refine ⟨fun h => False.elim h, fun _ => ⟨rfl, ?_⟩⟩
        simp [emitted, List.filter_append, hr, Event.isResetParam]

/-- C11 (as amended), at RESET SESSION AUTHORIZATION with no shard connection: the
setting and the role are both reset. -/
theorem procQuery_reset_metadata_witness :
    ∃ rst1 err,
      procQuery
          (sampleEnv (classifyAs (.ParseStateResetMetadataStmt "session_authorization"))
            (commentPairs []) (.ok []) false okOutcome)
          authSession "RESET SESSION AUTHORIZATION" (.Query "RESET SESSION AUTHORIZATION")
        = some (rst1, err)
      ∧ rst1.params
          = resetParam (resetParam authSession.params "session_authorization") "role"
      ∧ (emitted authSession rst1).filter Event.isResetParam
          = [.ResetParam "session_authorization", .ResetParam "role"] := by
  obtain ⟨rst1, err, h, -, h2⟩ := procQuery_reset_metadata
    (sampleEnv (classifyAs (.ParseStateResetMetadataStmt "session_authorization"))
      (commentPairs []) (.ok []) false okOutcome)
    authSession "RESET SESSION AUTHORIZATION" "" "session_authorization"
    (.Query "RESET SESSION AUTHORIZATION") false okOutcome rfl (fun _ => rfl)
    (fun _ _ _ _ => rfl)
  exact ⟨rst1, err, h, (h2 (Or.inl rfl)).1 rfl⟩

/-- C11 (counterexample): a shard connection is active and forwarding RESET SESSION
AUTHORIZATION fails; `procQuery` returns the error, calls `ResetParam` not at all, and
the role is still set. -/
theorem procQuery_reset_metadata_keeps_role :
    ∃ rst1,
      procQuery
          (sampleEnv (classifyAs (.ParseStateResetMetadataStmt "session_authorization"))
            (commentPairs []) (.ok []) true failedOutcome)
          authSession "RESET SESSION AUTHORIZATION" (.Query "RESET SESSION AUTHORIZATION")
        = some (rst1, some (.errorString "shard unavailable"))
      ∧ mapIndex rst1.params "role" = "admin"
      ∧ (emitted authSession rst1).filter Event.isResetParam = [] := by
  refine ⟨_, rfl, by decide, by decide⟩

/-- C12: on a SetStmt whose name does not begin with "__spqr__", with
`ProcessMessageBuf` reporting `out`, `procQuery` enqueues the message with `AddQuery`,
calls `ProcessMessageBuf` once and returns its error; `SetParam(name, value)` is called
exactly when it reported no error and success, and otherwise (an error, or no
success) neither `SetParam` nor `ResetParam` is called and the session parameters are
what they were before the call. -/
theorem procQuery_set_ordinary (env : Env) (rst : RelayState)
    (query comment Name Value : String) (msg : FrontendMessage) (out : RelayOutcome)
    (hparse : env.Parse query = .ok (.ParseStateSetStmt Name Value, comment))
    (hname : HasPrefix Name "__spqr__" = false)
    (hout : ∀ s w r h, env.ProcessMessageBuf s w r h = out) :
    ∃ rst1, procQuery env rst query msg = some (rst1, out.err)
      ∧ (emitted rst rst1).filter Event.isEnqueue = [.AddQuery msg]
      ∧ (emitted rst rst1).filter Event.isForward
          = [.ProcessMessageBuf true true (commentRouteHint env rst comment).2]
      ∧ ((out.err = none ∧ out.ok = true) →
          rst1.params = setParam rst.params Name Value
            ∧ (emitted rst rst1).filter Event.isSetParam = [.SetParam Name Value])
      ∧ ((out.err ≠ none ∨ out.ok = false) →
          rst1.params = rst.params ∧ (emitted rst rst1).filter Event.isSetParam = []
            ∧ (emitted rst rst1).filter Event.isResetParam = []) := by
  obtain ⟨evs, tsa, h1, h2⟩ := commentRouteHint_state env rst comment
  obtain ⟨hr, hq, hf⟩ := commentCall_filters evs h2
  obtain ⟨hrp, hsp⟩ := commentCall_filters2 evs h2
  cases hoe : out.err with
  | some e =>
    simp only [procQuery, hparse, procQuerySwitch, h1, hname, Bool.false_eq_true, if_false,
      ProcessMessageBuf, hout, hoe, RelayState.log, RelayState.AddQuery]
    refine ⟨_, rfl, ?_, ?_, ?_, ?_⟩
    · simp [emitted, List.filter_append, hq, Event.isEnqueue]
    · simp [emitted, List.filter_append, hf, Event.isForward]
    · intro h; simp at h
    · intro _
      refine ⟨rfl, ?_, ?_⟩ <;>
        simp [emitted, List.filter_append, hrp, hsp, Event.isSetParam, Event.isResetParam]
  | none =>
    cases hok : out.ok with
    | true =>
      simp only [procQuery, hparse, procQuerySwitch, h1, hname, Bool.false_eq_true, if_false,
        ProcessMessageBuf, hout, hoe, hok, if_true, RelayState.log, RelayState.AddQuery,
        RelayState.SetParam]
      refine ⟨_, rfl, ?_, ?_, ?_, ?_⟩
      · simp [emitted, List.filter_append, hq, Event.isEnqueue]
      · simp [emitted, List.filter_append, hf, Event.isForward]
      · intro _
        refine ⟨rfl, ?_⟩
        simp [emitted, List.filter_append, hsp, Event.isSetParam]
      · intro h; simp at h
    | false =>
      simp only [procQuery, hparse, procQuerySwitch, h1, hname, Bool.false_eq_true, if_false,
        ProcessMessageBuf, hout, hoe, hok, RelayState.log, RelayState.AddQuery]
      refine ⟨_, rfl, ?_, ?_, ?_, ?_⟩
      · simp [emitted, List.filter_append, hq, Event.isEnqueue]
      · simp [emitted, List.filter_append, hf, Event.isForward]
      · intro h; simp at h
      · intro _
        refine ⟨rfl, ?_, ?_⟩ <;>
          simp [emitted, List.filter_append, hrp, hsp, Event.isSetParam, Event.isResetParam]

/-- C12, at SET search_path with a failing shard: the error is returned and the
parameters are unchanged. -/
theorem procQuery_set_ordinary_witness :
    ∃ rst1,
      procQuery
          (sampleEnv (classifyAs (.ParseStateSetStmt "search_path" "public")) (commentPairs [])
            (.ok []) true failedOutcome)
          authSession "SET search_path TO public" (.Query "SET search_path TO public")
        = some (rst1, some (.errorString "shard unavailable"))
      ∧ rst1.params = authSession.params
      ∧ (emitted authSession rst1).filter Event.isSetParam = []
      ∧ (emitted authSession rst1).filter Event.isResetParam = [] := by
  obtain ⟨rst1, h, -, -, -, h2⟩ := procQuery_set_ordinary
    (sampleEnv (classifyAs (.ParseStateSetStmt "search_path" "public")) (commentPairs [])
      (.ok []) true failedOutcome)
    authSession "SET search_path TO public" "" "search_path" "public"
    (.Query "SET search_path TO public") failedOutcome rfl (by decide) (fun _ _ _ _ => rfl)
  exact ⟨rst1, h, h2 (Or.inr rfl)⟩

/-- C13 (as amended): on a PrepareStmt, with `ProcessMessageBuf` reporting `out`:
when advanced pooling is needed, `procQuery` stores name and query with
`StorePreparedStatement`, returns no error, writes no reply to the client, and
neither enqueues nor forwards the statement; when it is not needed, the message is
enqueued with `AddQuery` and forwarded with `ProcessMessageBuf`, whose error is
returned, and nothing is stored. -/
theorem procQuery_prepare (env : Env) (rst : RelayState)
    (query comment Name Query : String) (msg : FrontendMessage) (out : RelayOutcome)
    (hparse : env.Parse query = .ok (.ParseStatePrepareStmt Name Query, comment))
    (hout : ∀ s w r h, env.ProcessMessageBuf s w r h = out) :
    (AdvancedPoolModeNeeded rst = true →
      ∃ rst1, procQuery env rst query msg = some (rst1, none)
        ∧ rst1.preparedStatements = setParam rst.preparedStatements Name Query
        ∧ Event.StorePreparedStatement Name Query ∈ emitted rst rst1
        ∧ (emitted rst rst1).filter Event.isReply = []
        ∧ (emitted rst rst1).filter Event.isEnqueue = []
        ∧ (emitted rst rst1).filter Event.isForward = [])
    ∧ (AdvancedPoolModeNeeded rst = false →
      ∃ rst1, procQuery env rst query msg = some (rst1, out.err)
        ∧ rst1.preparedStatements = rst.preparedStatements
        ∧ (∀ n q, Event.StorePreparedStatement n q ∉ emitted rst rst1)
        ∧ (emitted rst rst1).filter Event.isEnqueue = [.AddQuery msg]
        ∧ (emitted rst rst1).filter Event.isForward
            = [.ProcessMessageBuf true true (commentRouteHint env rst comment).2]) := by
  obtain ⟨evs, tsa, h1, h2⟩ := commentRouteHint_state env rst comment
  obtain ⟨hr, hq, hf⟩ := commentCall_filters evs h2
  have hst : ∀ n q, Event.StorePreparedStatement n q ∉ evs := fun n q hm => by
    simpa [Event.isCommentCall] using h2 _ hm
  have hadv := AdvancedPoolModeNeeded_congr rst tsa (rst.trace ++ evs)
  constructor
  · intro h
    rw [← hadv] at h
    simp only [procQuery, hparse, procQuerySwitch, h1, h, if_true,
      RelayState.StorePreparedStatement, RelayState.log]
    refine ⟨_, rfl, rfl, ?_, ?_, ?_, ?_⟩ <;>
      simp [emitted, List.filter_append, hr, hq, hf, Event.isReply, Event.isEnqueue,
        Event.isForward]
  · intro h
    rw [← hadv] at h
    simp only [procQuery, hparse, procQuerySwitch, h1, h, Bool.false_eq_true, if_false,
      ProcessMessageBuf, hout, RelayState.log, RelayState.AddQuery]
    refine ⟨_, rfl, rfl, ?_, ?_, ?_⟩ <;>
      simp [emitted, List.filter_append, hr, hq, hf, hst, Event.isReply, Event.isEnqueue,
        Event.isForward]

/-- C13 (as amended), at PREPARE in a session with the router in proxy mode. -/
theorem procQuery_prepare_witness :
    ∃ rst1,
      procQuery
          (sampleEnv (classifyAs (.ParseStatePrepareStmt "p1" "SELECT 1")) (commentPairs [])
            (.ok []) true okOutcome)
          proxySession "PREPARE p1 AS SELECT 1" (.Query "PREPARE p1 AS SELECT 1")
        = some (rst1, none)
      ∧ rst1.preparedStatements = setParam proxySession.preparedStatements "p1" "SELECT 1"
      ∧ Event.StorePreparedStatement "p1" "SELECT 1" ∈ emitted proxySession rst1
      ∧ (emitted proxySession rst1).filter Event.isReply = []
      ∧ (emitted proxySession rst1).filter Event.isEnqueue = []
      ∧ (emitted proxySession rst1).filter Event.isForward = [] :=
  (procQuery_prepare
    (sampleEnv (classifyAs (.ParseStatePrepareStmt "p1" "SELECT 1")) (commentPairs [])
      (.ok []) true okOutcome)
    proxySession "PREPARE p1 AS SELECT 1" "" "p1" "SELECT 1" (.Query "PREPARE p1 AS SELECT 1")
    okOutcome rfl (fun _ _ _ _ => rfl)).1 rfl

/-- C13 (counterexample): advanced pooling is needed (proxy mode); `procQuery` on
PREPARE returns no error and the whole call makes one call only,
`StorePreparedStatement`: no reply is written to the client. -/
theorem procQuery_prepare_no_reply :
    AdvancedPoolModeNeeded proxySession = true
    ∧ ∃ rst1,
      procQuery
          (sampleEnv (classifyAs (.ParseStatePrepareStmt "p1" "SELECT 1")) (commentPairs [])
            (.ok []) true okOutcome)
          proxySession "PREPARE p1 AS SELECT 1" (.Query "PREPARE p1 AS SELECT 1")
        = some (rst1, none)
      ∧ emitted proxySession rst1 = [.StorePreparedStatement "p1" "SELECT 1"]
      ∧ (emitted proxySession rst1).filter Event.isReply = [] := by
  refine ⟨by decide, _, rfl, by decide, by decide⟩

/-- C14 (as amended): in every pool mode `ProcessMessage` on Terminate returns no error
and makes no call.  `Frontend` does not return on it: the loop goes on with the next
`Receive`, so it is blocked in `Receive` when nothing more arrives, it dispatches what
arrives, and it returns no error when the next `Receive` reports `io.EOF` or
`io.ErrUnexpectedEOF`. -/
theorem Frontend_terminate_continues (env : Env) (fenv : FrontendEnv) (rst : RelayState)
    (rest : List (Except GoError FrontendMessage)) :
    ProcessMessage env rst .Terminate = some (rst, none)
    ∧ FrontendLoop env fenv rst (.ok .Terminate :: rest)
        = FrontendLoop env fenv (recordWorkload fenv (rst.log .Receive) .Terminate) rest
    ∧ FrontendLoop env fenv rst [.ok .Terminate]
        = .receiving (recordWorkload fenv (rst.log .Receive) .Terminate)
    ∧ FrontendLoop env fenv rst [.ok .Terminate, .error .EOF]
        = .returned ((recordWorkload fenv (rst.log .Receive) .Terminate).log .Receive) none
    ∧ FrontendLoop env fenv rst [.ok .Terminate, .error .ErrUnexpectedEOF]
        = .returned ((recordWorkload fenv (rst.log .Receive) .Terminate).log .Receive) none := by
  have h : ∀ rest, FrontendLoop env fenv rst (.ok .Terminate :: rest)
      = FrontendLoop env fenv (recordWorkload fenv (rst.log .Receive) .Terminate) rest := by
    intro rest
    simp only [FrontendLoop, ProcessMessage_Terminate]
  refine ⟨ProcessMessage_Terminate env rst, h rest, ?_, ?_, ?_⟩
  · rw [h]; rfl
  · rw [h]; rfl
  · rw [h]; rfl

/-- C14 (counterexample): after Terminate `Frontend` has not returned, it is in the
next `Receive`; a query that arrives after Terminate is received, enqueued and
forwarded, and `Frontend` returns only on the end of the stream. -/
theorem Frontend_terminate_does_not_return :
    Frontend (sampleEnv (classifyAs (.Other 0)) (commentPairs []) (.ok []) true okOutcome)
        (sampleFrontendEnv none) (sampleSession .TXIDLE .PoolModeSession) [.ok .Terminate]
      = .receiving ((sampleSession .TXIDLE .PoolModeSession).log .Receive)
    ∧ ∃ rst1,
      Frontend (sampleEnv (classifyAs (.Other 0)) (commentPairs []) (.ok []) true okOutcome)
          (sampleFrontendEnv none) (sampleSession .TXIDLE .PoolModeSession)
          [.ok .Terminate, .ok (.Query "SELECT 1"), .error .EOF]
        = .returned rst1 none
      ∧ rst1.trace = [.Receive, .Receive, .AddQuery (.Query "SELECT 1"),
          .ProcessMessageBuf true true (some .EmptyRouteHint), .Receive, .Close] := by
  refine ⟨by decide, _, rfl, by decide⟩

/-- C15 (as amended): when `ProcessMessage` returns an error for a received message:
if the error is `io.EOF` or `io.ErrUnexpectedEOF`, `Frontend` returns no error;
otherwise it calls `UnRouteWithError` once, on the active shards, with the error
"client proccessing error: ..., tx status ...", and then goes on with the next
`Receive` when `UnRouteWithError` returns no error, and returns the error of
`UnRouteWithError` when it returns one. -/
theorem Frontend_dispatch_error (env : Env) (fenv : FrontendEnv) (rst rst1 : RelayState)
    (msg : FrontendMessage) (rest : List (Except GoError FrontendMessage)) (err : GoError)
    (hdisp : ProcessMessage env (recordWorkload fenv (rst.log .Receive) msg) msg
      = some (rst1, some err)) :
    ((err = .EOF ∨ err = .ErrUnexpectedEOF) →
      FrontendLoop env fenv rst (.ok msg :: rest) = .returned rst1 none)
    ∧ (err ≠ .EOF → err ≠ .ErrUnexpectedEOF →
      emitted rst1
          (UnRouteWithError fenv rst1 (fenv.ActiveShards rst1)
            (.errorString ("client proccessing error: " ++ err.Error ++ ", tx status "
              ++ fenv.TxStatusString rst1.txStatus))).1
        = [.UnRouteWithError (fenv.ActiveShards rst1)
            (.errorString ("client proccessing error: " ++ err.Error ++ ", tx status "
              ++ fenv.TxStatusString rst1.txStatus))]
      ∧ ((UnRouteWithError fenv rst1 (fenv.ActiveShards rst1)
            (.errorString ("client proccessing error: " ++ err.Error ++ ", tx status "
              ++ fenv.TxStatusString rst1.txStatus))).2 = none →
          FrontendLoop env fenv rst (.ok msg :: rest)
            = FrontendLoop env fenv
                (UnRouteWithError fenv rst1 (fenv.ActiveShards rst1)
                  (.errorString ("client proccessing error: " ++ err.Error ++ ", tx status "
                    ++ fenv.TxStatusString rst1.txStatus))).1 rest)
      ∧ (∀ uerr, (UnRouteWithError fenv rst1 (fenv.ActiveShards rst1)
            (.errorString ("client proccessing error: " ++ err.Error ++ ", tx status "
              ++ fenv.TxStatusString rst1.txStatus))).2 = some uerr →
          FrontendLoop env fenv rst (.ok msg :: rest)
            = .returned
                (UnRouteWithError fenv rst1 (fenv.ActiveShards rst1)
                  (.errorString ("client proccessing error: " ++ err.Error ++ ", tx status "
                    ++ fenv.TxStatusString rst1.txStatus))).1 (some uerr))) := by
  constructor
  · rintro (h | h) <;> subst h <;> simp only [FrontendLoop, hdisp]
  · intro h1 h2
    cases err with
    | EOF => exact absurd rfl h1
    | ErrUnexpectedEOF => exact absurd rfl h2
    | errorString e =>
      refine ⟨?_, ?_, ?_⟩
      · simp [emitted, UnRouteWithError, RelayState.log]
      · intro hu
        simp only [FrontendLoop, hdisp, GoError.Error, RelayState.TxStatus] at hu ⊢
        rw [hu]
      · intro uerr hu
        simp only [FrontendLoop, hdisp, GoError.Error, RelayState.TxStatus] at hu ⊢
        rw [hu]

/-- C15 (as amended), at a query that fails to parse, with `UnRouteWithError`
succeeding: the loop goes on with the rest of the input. -/
theorem Frontend_dispatch_error_witness :
    FrontendLoop
        (sampleEnv (fun _ => .error (.errorString "parse failure")) (commentPairs []) (.ok [])
          true okOutcome)
        (sampleFrontendEnv none) (sampleSession .TXIDLE .PoolModeSession)
        [.ok (.Query "SELEC 1"), .error .EOF]
      = FrontendLoop
        (sampleEnv (fun _ => .error (.errorString "parse failure")) (commentPairs []) (.ok [])
          true okOutcome)
        (sampleFrontendEnv none)
        (UnRouteWithError (sampleFrontendEnv none)
          ((sampleSession .TXIDLE .PoolModeSession).log .Receive)
          ((sampleFrontendEnv none).ActiveShards
            ((sampleSession .TXIDLE .PoolModeSession).log .Receive))
          (.errorString ("client proccessing error: "
            ++ (GoError.errorString
                ("error processing query \x27" ++ "SELEC 1" ++ "\x27: "
                  ++ (GoError.errorString "parse failure").Error)).Error
            ++ ", tx status "
            ++ (sampleFrontendEnv none).TxStatusString
                ((sampleSession .TXIDLE .PoolModeSession).log .Receive).txStatus))).1
        [.error .EOF] :=
  ((Frontend_dispatch_error
    (sampleEnv (fun _ => .error (.errorString "parse failure")) (commentPairs []) (.ok [])
      true okOutcome)
    (sampleFrontendEnv none) (sampleSession .TXIDLE .PoolModeSession)
    ((sampleSession .TXIDLE .PoolModeSession).log .Receive)
    (.Query "SELEC 1") [.error .EOF]
    (.errorString ("error processing query \x27" ++ "SELEC 1" ++ "\x27: "
      ++ (GoError.errorString "parse failure").Error))
    rfl).2 (by decide) (by decide)).2.1 rfl

/-- C15 (counterexample): every `Receive` succeeds, a query fails to parse and
`UnRouteWithError` fails; `Frontend` returns the error of `UnRouteWithError` after a
single `Receive`, leaving the next message unread. -/
theorem Frontend_returns_on_unroute_error :
    ∃ rst1,
      Frontend
          (sampleEnv (fun _ => .error (.errorString "parse failure")) (commentPairs [])
            (.ok []) true okOutcome)
          (sampleFrontendEnv (some (.errorString "unroute failed")))
          (sampleSession .TXIDLE .PoolModeSession)
          [.ok (.Query "SELEC 1"), .ok (.Query "SELECT 1")]
        = .returned rst1 (some (.errorString "unroute failed"))
      ∧ rst1.trace.filter (fun e => e == Event.Receive) = [.Receive] := by
  refine ⟨_, rfl, by decide⟩

/-- C16: for every statement that `rst.Parse` classifies and every starting state, a
call of `procQuery` that returns has called `SetTxStatus` exactly once, with Active,
when the statement is TxBegin and the state is Idle, and not at all otherwise; and
`procQuery` returns unless the statement is a ShowStmt whose name is shorter than 8
bytes. -/
theorem procQuery_SetTxStatus_only_begin_idle (env : Env) (rst : RelayState)
    (query comment : String) (state : ParseState) (msg : FrontendMessage)
    (hparse : env.Parse query = .ok (state, comment)) :
    (∀ rst1 err, procQuery env rst query msg = some (rst1, err) →
      (emitted rst rst1).filter Event.isSetTxStatus
        = if state.isTXBegin = true ∧ rst.txStatus = .TXIDLE then [.SetTxStatus .TXACT]
          else [])
    ∧ (procQuery env rst query msg = none →
        ∃ Name, state = .ParseStateShowStmt Name ∧ Name.length < 8) := by
  obtain ⟨evs, tsa, h1, h2⟩ := commentRouteHint_state env rst comment
  have hf := commentCall_filter_setTx evs h2
  constructor
  · intro rst1 err hret
    simp only [procQuery, hparse] at hret
    obtain ⟨ht, hs⟩ := procQuerySwitch_setTxStatus env _ state msg _ rst1 err hret
    rw [h1] at ht hs
    simp only at ht hs
    have he : emitted rst rst1
        = evs ++ emitted { rst with trace := rst.trace ++ evs, tsa := tsa } rst1 := by
      apply emitted_append
      rw [ht]
      simp
    rw [he, List.filter_append, hf, hs]
    simp
  · intro h
    simp only [procQuery, hparse] at h
    exact procQuerySwitch_none env _ state msg _ h

/-- C16, at BEGIN in a sample session in state Idle. -/
theorem procQuery_SetTxStatus_only_begin_idle_witness :
    ∃ rst1 err,
      procQuery
          (sampleEnv (classifyAs (.ParseStateTXBegin [])) (commentPairs []) (.ok []) false
            okOutcome)
          (sampleSession .TXIDLE .PoolModeSession) "BEGIN" (.Query "BEGIN") = some (rst1, err)
      ∧ (emitted (sampleSession .TXIDLE .PoolModeSession) rst1).filter Event.isSetTxStatus
          = [.SetTxStatus .TXACT] :=
  ⟨_, _, rfl,
    (procQuery_SetTxStatus_only_begin_idle
      (sampleEnv (classifyAs (.ParseStateTXBegin [])) (commentPairs []) (.ok []) false
        okOutcome)
      (sampleSession .TXIDLE .PoolModeSession) "BEGIN" "" (.ParseStateTXBegin [])
      (.Query "BEGIN") rfl).1 _ _ rfl⟩

/-- C17: `AdvancedPoolModeNeeded` is true exactly when the pool mode of the rule is
Transaction and prepared-statement pooling is set, or the router mode is Proxy; so it
is false under Session pooling without Proxy, and false under Transaction pooling
without the prepared-statement flag and without Proxy. -/
theorem AdvancedPoolModeNeeded_iff (rst : RelayState) :
    (AdvancedPoolModeNeeded rst = true
      ↔ (rst.PoolMode = .PoolModeTransaction ∧ rst.PoolPreparedStatement = true)
        ∨ rst.RouterMode = .ProxyMode)
    ∧ AdvancedPoolModeNeeded
        { rst with PoolMode := .PoolModeSession, RouterMode := .LocalMode } = false
    ∧ AdvancedPoolModeNeeded
        { rst with PoolMode := .PoolModeTransaction, PoolPreparedStatement := false,
                   RouterMode := .LocalMode } = false := by
  refine ⟨?_, ?_, ?_⟩ <;> simp [AdvancedPoolModeNeeded]

/-- C18: in state Active, when the pool manager reports no active shard connection,
`procQuery` on TxCommit returns the error "client relay has no connection to shards",
`txStatus` is unchanged, nothing is enqueued, nothing is forwarded, no reply is sent
and `CommitActiveSet` is not called. -/
theorem procQuery_commit_no_connection (env : Env) (rst : RelayState)
    (query comment : String) (msg : FrontendMessage)
    (hparse : env.Parse query = .ok (.ParseStateTXCommit, comment))
    (htx : rst.txStatus = .TXACT)
    (hconn : ∀ s, env.ConnectionActive s = false) :
    ∃ rst1, procQuery env rst query msg
        = some (rst1, some (.errorString "client relay has no connection to shards"))
      ∧ rst1.txStatus = rst.txStatus
      ∧ (emitted rst rst1).filter Event.isEnqueue = []
      ∧ (emitted rst rst1).filter Event.isForward = []
      ∧ (emitted rst rst1).filter Event.isReply = []
      ∧ Event.CommitActiveSet ∉ emitted rst rst1 := by
  obtain ⟨evs, tsa, h1, h2⟩ := commentRouteHint_state env rst comment
  obtain ⟨hr, hq, hf⟩ := commentCall_filters evs h2
  have hca : Event.CommitActiveSet ∉ evs := fun hm => by
    simpa [Event.isCommentCall] using h2 _ hm
  simp only [procQuery, hparse, procQuerySwitch, h1, RelayState.TxStatus, htx, ne_eq,
    not_true_eq_false, if_false, ConnectionActive, hconn, Bool.not_false, if_true,
    RelayState.log]
  refine ⟨_, rfl, rfl, ?_, ?_, ?_, ?_⟩ <;>
    simp [emitted, List.filter_append, hr, hq, hf, hca, Event.isReply, Event.isEnqueue,
      Event.isForward]

/-- C18, at COMMIT in a sample session in state Active with no shard connection. -/
theorem procQuery_commit_no_connection_witness :
    ∃ rst1,
      procQuery
          (sampleEnv (classifyAs .ParseStateTXCommit) (commentPairs []) (.ok []) false okOutcome)
          (sampleSession .TXACT .PoolModeSession) "COMMIT" (.Query "COMMIT")
        = some (rst1, some (.errorString "client relay has no connection to shards"))
      ∧ rst1.txStatus = (sampleSession .TXACT .PoolModeSession).txStatus
      ∧ (emitted (sampleSession .TXACT .PoolModeSession) rst1).filter Event.isEnqueue = []
      ∧ (emitted (sampleSession .TXACT .PoolModeSession) rst1).filter Event.isForward = []
      ∧ (emitted (sampleSession .TXACT .PoolModeSession) rst1).filter Event.isReply = []
      ∧ Event.CommitActiveSet ∉ emitted (sampleSession .TXACT .PoolModeSession) rst1 :=
  procQuery_commit_no_connection
    (sampleEnv (classifyAs .ParseStateTXCommit) (commentPairs []) (.ok []) false okOutcome)
    (sampleSession .TXACT .PoolModeSession) "COMMIT" "" (.Query "COMMIT") rfl rfl
    (fun _ => rfl)

/-- C19: on a ShowStmt whose name is "__spqr__" followed by s, the slice
`Name[8:len(Name)]` is in bounds and is s, and `procQuery` returns no error after
exactly three replies, in order: a RowDescription with one field of type OID 25, a
DataRow with the one value that the session parameters hold under the lower-cased s
(the empty string when there is none), and CommandComplete "SHOW".  The handler does
not test the name: for any name, `procQuery` panics exactly when the name is shorter
than 8 bytes. -/
theorem procQuery_show (env : Env) (rst : RelayState) (query comment Name : String)
    (msg : FrontendMessage)
    (hparse : env.Parse query = .ok (.ParseStateShowStmt Name, comment)) :
    (∀ s, Name = "__spqr__" ++ s →
      sliceFrom8 Name = some s
      ∧ ∃ rst1, procQuery env rst query msg = some (rst1, none)
        ∧ (emitted rst rst1).filter Event.isReply
            = [.Send (.RowDescription [25]),
               .Send (.DataRow [mapIndex rst.params (env.ToLower s)]),
               .ReplyCommandComplete rst.txStatus "SHOW"]
        ∧ (∀ v, rst.params.lookup (env.ToLower s) = some v →
            mapIndex rst.params (env.ToLower s) = v)
        ∧ (rst.params.lookup (env.ToLower s) = none →
            mapIndex rst.params (env.ToLower s) = ""))
    ∧ (procQuery env rst query msg = none ↔ Name.length < 8) := by
  constructor
  · intro s hs
    subst hs
    obtain ⟨evs, tsa, hc, hp⟩ := procQuery_show_internal env rst query comment s msg hparse
    obtain ⟨hr, hq, hf⟩ := commentCall_filters evs hc
    refine ⟨(spqr_name_slice s).2, _, hp, ?_, ?_, ?_⟩
    · rw [emitted_append _ _ _ rfl]
      simp [List.filter_append, hr, Event.isReply]
    · intro v hv; simp [mapIndex, hv]
    · intro hv; simp [mapIndex, hv]
  · simp only [procQuery, hparse, procQuerySwitch, sliceFrom8]
    by_cases h : 8 ≤ Name.length
    · simp [h]
    · simp [h]; omega

/-- C19, at SHOW of a router-private parameter that is not set. -/
theorem procQuery_show_witness :
    ∃ rst1,
      procQuery
          (sampleEnv (classifyAs (.ParseStateShowStmt "__spqr__foo")) (commentPairs []) (.ok [])
            false okOutcome)
          (sampleSession .TXIDLE .PoolModeSession) "SHOW __spqr__foo"
          (.Query "SHOW __spqr__foo") = some (rst1, none)
      ∧ (emitted (sampleSession .TXIDLE .PoolModeSession) rst1).filter Event.isReply
          = [.Send (.RowDescription [25]), .Send (.DataRow [""]),
             .ReplyCommandComplete .TXIDLE "SHOW"] := by
  obtain ⟨-, rst1, h, hr, -, -⟩ := (procQuery_show
    (sampleEnv (classifyAs (.ParseStateShowStmt "__spqr__foo")) (commentPairs []) (.ok [])
      false okOutcome)
    (sampleSession .TXIDLE .PoolModeSession) "SHOW __spqr__foo" "" "__spqr__foo"
    (.Query "SHOW __spqr__foo") rfl).1 "foo" (by decide)
  exact ⟨rst1, h, hr⟩

/-- C20 (as amended): outside Transaction pooling `ProcessMessage` hands a Parse with
query text t and a Query with text t to `procQuery` with the same text.  When the
answers of the collaborators do not depend on which message object was enqueued, the
two calls agree once the enqueued message objects are forgotten: both panic or both
return, with the same error, the same `txStatus`, session parameters, prepared
statements and target-session-attrs, the same replies, the same forwarding calls of
the relay, and the same trace up to the message object in `AddQuery` and
`AddSilentQuery`. -/
theorem ProcessMessage_parse_as_query (env : Env) (rst : RelayState) (Name t : String)
    (hmode : rst.PoolMode ≠ .PoolModeTransaction) (hblind : env.MessageBlind) :
    ProcessMessage env rst (.Parse Name t) = procQuery env rst t (.Parse Name t)
    ∧ ProcessMessage env rst (.Query t) = procQuery env rst t (.Query t)
    ∧ (ProcessMessage env rst (.Parse Name t)).map eraseResult
        = (ProcessMessage env rst (.Query t)).map eraseResult
    ∧ (ProcessMessage env rst (.Parse Name t) = none
        ↔ ProcessMessage env rst (.Query t) = none)
    ∧ (∀ r1 r2, ProcessMessage env rst (.Parse Name t) = some r1 →
        ProcessMessage env rst (.Query t) = some r2 →
        r1.2 = r2.2
        ∧ r1.1.txStatus = r2.1.txStatus
        ∧ r1.1.params = r2.1.params
        ∧ r1.1.preparedStatements = r2.1.preparedStatements
        ∧ r1.1.tsa = r2.1.tsa
        ∧ (emitted rst r1.1).filter Event.isReply = (emitted rst r2.1).filter Event.isReply
        ∧ (emitted rst r1.1).filter Event.isForward
            = (emitted rst r2.1).filter Event.isForward
        ∧ (emitted rst r1.1).map Event.eraseMsg = (emitted rst r2.1).map Event.eraseMsg) := by
  have hP : ProcessMessage env rst (.Parse Name t) = procQuery env rst t (.Parse Name t) := by
    simp [ProcessMessage, hmode]
  have hQ : ProcessMessage env rst (.Query t) = procQuery env rst t (.Query t) := by
    simp [ProcessMessage, hmode]
  have hE := procQuery_msg env hblind rst t (.Parse Name t) (.Query t)
  rw [← hP, ← hQ] at hE
  refine ⟨hP, hQ, hE, ?_, ?_⟩
  · constructor
    · intro h; rw [h] at hE; simpa using hE.symm
    · intro h; rw [h] at hE; simpa using hE
  · intro r1 r2 h1 h2
    rw [h1, h2] at hE
    simp only [Option.map_some', Option.some.injEq, eraseResult, Prod.mk.injEq] at hE
    obtain ⟨hs, he⟩ := hE
    have hm := emitted_eraseMsg rst _ _ hs
    have htx : r1.1.txStatus = r2.1.txStatus := by
      have := congrArg RelayState.txStatus hs
      simpa [RelayState.eraseMsg] using this
    have hpa : r1.1.params = r2.1.params := by
      have := congrArg RelayState.params hs
      simpa [RelayState.eraseMsg] using this
    have hps : r1.1.preparedStatements = r2.1.preparedStatements := by
      have := congrArg RelayState.preparedStatements hs
      simpa [RelayState.eraseMsg] using this
    have hts : r1.1.tsa = r2.1.tsa := by
      have := congrArg RelayState.tsa hs
      simpa [RelayState.eraseMsg] using this
    refine ⟨he, htx, hpa, hps, hts, ?_, ?_, hm⟩
    · rw [← filter_isReply_eraseMsg, hm, filter_isReply_eraseMsg]
    · rw [← filter_isForward_eraseMsg, hm, filter_isForward_eraseMsg]

/-- C20 (as amended), at the text SELECT 1 in a sample session under session pooling,
with collaborators that give the same answer whatever was enqueued. -/
theorem ProcessMessage_parse_as_query_witness :
    (ProcessMessage
        (sampleEnv (classifyAs (.Other 0)) (commentPairs []) (.ok []) true okOutcome)
        (sampleSession .TXIDLE .PoolModeSession) (.Parse "s1" "SELECT 1")).map eraseResult
      = (ProcessMessage
        (sampleEnv (classifyAs (.Other 0)) (commentPairs []) (.ok []) true okOutcome)
        (sampleSession .TXIDLE .PoolModeSession) (.Query "SELECT 1")).map eraseResult :=
  (ProcessMessage_parse_as_query
    (sampleEnv (classifyAs (.Other 0)) (commentPairs []) (.ok []) true okOutcome)
    (sampleSession .TXIDLE .PoolModeSession) "s1" "SELECT 1" (by decide)
    ⟨fun _ _ => rfl, fun _ _ => rfl, fun _ _ _ => rfl, fun _ => rfl, fun _ _ _ _ => rfl,
      fun _ _ _ _ _ => rfl, fun _ _ _ => rfl, fun _ _ => rfl⟩).2.2.1

/-- C20 (counterexample): outside Transaction pooling, with a relay whose
`ProcessMessageBuf` answers on the enqueued message object, dispatching a Parse with
the text SELECT 1 returns an error and leaves `txStatus` Failed, while dispatching a
Query with the same text returns no error and leaves `txStatus` Idle. -/
theorem ProcessMessage_parse_differs_from_query :
    (∃ rst1,
      ProcessMessage objectAwareEnv (sampleSession .TXIDLE .PoolModeSession)
          (.Parse "s1" "SELECT 1")
        = some (rst1, some (.errorString "prepared statement already exists"))
      ∧ rst1.txStatus = .TXERR)
    ∧ (∃ rst2,
      ProcessMessage objectAwareEnv (sampleSession .TXIDLE .PoolModeSession)
          (.Query "SELECT 1")
        = some (rst2, none)
      ∧ rst2.txStatus = .TXIDLE) := by
  refine ⟨⟨_, rfl, rfl⟩, ⟨_, rfl, rfl⟩⟩

end Router
